import Mathlib

/-!
Verification of the voxel-world core of `rust-minecraft-poc`.

The definitions below are a shallow embedding of the Rust sources:
  * `src/world/chunk.rs`      — chunk storage and sky-light propagation,
  * `src/world/terrain.rs`    — terrain generation,
  * `src/world/mesh_gen.rs`   — mesh building,
  * `src/systems/block_interaction.rs` — cache-based re-lighting/remeshing.

Machine integers are modelled by `Nat`/`Int`: `usize` coordinates are `Nat`
(an out-of-range `usize` is a value `≥ CHUNK_SIZE`), `i32` world coordinates
are `Int`, `u8` light levels are `Nat` (every store goes through the clamp in
`set_light`, mirroring the source), and `u8::saturating_sub` is truncated
`Nat` subtraction.  `Vec<T>` fields carry their fixed-length invariant
(both chunk arrays are created with `CHUNK_SIZE³` elements and never
resized), so the in-range index accesses of the source are total here, as
they are in the running program.
-/

set_option maxHeartbeats 4000000

namespace MC

/-- `CHUNK_SIZE` from `world/chunk.rs`: chunks are 16×16×16. -/
abbrev CHUNK_SIZE : Nat := 16

/-- `MAX_LIGHT_LEVEL` from `world/chunk.rs`. -/
abbrev MAX_LIGHT_LEVEL : Nat := 15

/-- Number of voxels in one chunk (`CHUNK_SIZE * CHUNK_SIZE * CHUNK_SIZE`). -/
abbrev CHUNK_VOL : Nat := CHUNK_SIZE * CHUNK_SIZE * CHUNK_SIZE

/-- `BlockId` (`blocks/registry.rs`): a `u16` newtype; value 0 is air. -/
abbrev BlockId := Nat

/-- `BlockId::AIR`. -/
def BlockId.AIR : BlockId := 0

/-- `BlockId::is_air`. -/
def is_air (b : BlockId) : Bool := b == 0

/-- `ChunkCoord` (`world/chunk.rs`): integer chunk-grid coordinates. -/
structure ChunkCoord where
  x : Int
  y : Int
  z : Int
deriving DecidableEq

/-- `Chunk` (`world/chunk.rs`): coordinate identity plus the two flat
`CHUNK_SIZE³` arrays, indexed by `x + z*CHUNK_SIZE + y*CHUNK_SIZE²`. -/
structure Chunk where
  coord : ChunkCoord
  blocks : List BlockId
  light_levels : List Nat
  blocks_len : blocks.length = CHUNK_VOL
  light_len : light_levels.length = CHUNK_VOL

/-- `Chunk::index`: the linearization `x + z * CHUNK_SIZE + y * CHUNK_SIZE²`. -/
def Chunk.index (x y z : Nat) : Nat :=
  x + z * CHUNK_SIZE + y * CHUNK_SIZE * CHUNK_SIZE

theorem Chunk.index_lt {x y z : Nat} (hx : x < CHUNK_SIZE) (hy : y < CHUNK_SIZE)
    (hz : z < CHUNK_SIZE) : Chunk.index x y z < CHUNK_VOL := by
  unfold Chunk.index CHUNK_VOL CHUNK_SIZE at *
  omega

theorem Chunk.index_inj {x y z a b d : Nat} (hx : x < CHUNK_SIZE) (hy : y < CHUNK_SIZE)
    (hz : z < CHUNK_SIZE) (ha : a < CHUNK_SIZE) (hb : b < CHUNK_SIZE) (hd : d < CHUNK_SIZE)
    (h : Chunk.index x y z = Chunk.index a b d) : x = a ∧ y = b ∧ z = d := by
  unfold Chunk.index CHUNK_SIZE at *
  omega

/-- `Chunk::new`: all blocks air, all light levels at the maximum. -/
def Chunk.new (coord : ChunkCoord) : Chunk where
  coord := coord
  blocks := List.replicate CHUNK_VOL BlockId.AIR
  light_levels := List.replicate CHUNK_VOL MAX_LIGHT_LEVEL
  blocks_len := List.length_replicate _ _
  light_len := List.length_replicate _ _

/-- `Chunk::get_block`: out-of-range coordinates read as air (the source
returns `AIR` when `x >= CHUNK_SIZE || y >= CHUNK_SIZE || z >= CHUNK_SIZE`
and indexes the array otherwise). -/
def Chunk.get_block (c : Chunk) (x y z : Nat) : BlockId :=
  if h : x < CHUNK_SIZE ∧ y < CHUNK_SIZE ∧ z < CHUNK_SIZE then
    c.blocks.get ⟨Chunk.index x y z, by rw [c.blocks_len]; exact Chunk.index_lt h.1 h.2.1 h.2.2⟩
  else BlockId.AIR

/-- `Chunk::set_block`: writes in range, no-op out of range. -/
def Chunk.set_block (c : Chunk) (x y z : Nat) (block_id : BlockId) : Chunk :=
  if x < CHUNK_SIZE ∧ y < CHUNK_SIZE ∧ z < CHUNK_SIZE then
    { c with blocks := c.blocks.set (Chunk.index x y z) block_id,
             blocks_len := by rw [List.length_set]; exact c.blocks_len }
  else c

/-- `Chunk::get_light`: out-of-range coordinates read as full light. -/
def Chunk.get_light (c : Chunk) (x y z : Nat) : Nat :=
  if h : x < CHUNK_SIZE ∧ y < CHUNK_SIZE ∧ z < CHUNK_SIZE then
    c.light_levels.get ⟨Chunk.index x y z, by rw [c.light_len]; exact Chunk.index_lt h.1 h.2.1 h.2.2⟩
  else MAX_LIGHT_LEVEL

/-- `Chunk::set_light`: writes `level.min(MAX_LIGHT_LEVEL)` in range, no-op
out of range. -/
def Chunk.set_light (c : Chunk) (x y z : Nat) (level : Nat) : Chunk :=
  if x < CHUNK_SIZE ∧ y < CHUNK_SIZE ∧ z < CHUNK_SIZE then
    { c with light_levels := c.light_levels.set (Chunk.index x y z) (min level MAX_LIGHT_LEVEL),
             light_len := by rw [List.length_set]; exact c.light_len }
  else c

/-! Basic lemmas about the four primitives. -/

theorem Chunk.eq_of_fields {c d : Chunk} (h1 : c.coord = d.coord)
    (h2 : c.blocks = d.blocks) (h3 : c.light_levels = d.light_levels) : c = d := by
  cases c; cases d
  simp only at h1 h2 h3
  subst h1; subst h2; subst h3
  rfl

theorem Chunk.coord_set_block (c : Chunk) (x y z b : Nat) :
    (c.set_block x y z b).coord = c.coord := by
  unfold Chunk.set_block; split <;> rfl

theorem Chunk.coord_set_light (c : Chunk) (x y z v : Nat) :
    (c.set_light x y z v).coord = c.coord := by
  unfold Chunk.set_light; split <;> rfl

theorem Chunk.blocks_set_light (c : Chunk) (x y z v : Nat) :
    (c.set_light x y z v).blocks = c.blocks := by
  unfold Chunk.set_light; split <;> rfl

theorem Chunk.light_set_block (c : Chunk) (x y z b : Nat) :
    (c.set_block x y z b).light_levels = c.light_levels := by
  unfold Chunk.set_block; split <;> rfl

theorem Chunk.get_block_set_light (c : Chunk) (x y z v a b d : Nat) :
    (c.set_light x y z v).get_block a b d = c.get_block a b d := by
  unfold Chunk.get_block
  split
  · exact List.get_of_eq (Chunk.blocks_set_light c x y z v) _
  · rfl

theorem Chunk.get_light_set_block (c : Chunk) (x y z b a e d : Nat) :
    (c.set_block x y z b).get_light a e d = c.get_light a e d := by
  unfold Chunk.get_light
  split
  · exact List.get_of_eq (Chunk.light_set_block c x y z b) _
  · rfl

theorem Chunk.get_light_set_light_self (c : Chunk) {x y z : Nat}
    (hx : x < CHUNK_SIZE) (hy : y < CHUNK_SIZE) (hz : z < CHUNK_SIZE) (v : Nat) :
    (c.set_light x y z v).get_light x y z = min v MAX_LIGHT_LEVEL := by
  unfold Chunk.set_light Chunk.get_light
  rw [if_pos ⟨hx, hy, hz⟩, dif_pos ⟨hx, hy, hz⟩]
  show (c.light_levels.set (Chunk.index x y z) (min v MAX_LIGHT_LEVEL)).get _ = _
  rw [List.get_eq_getElem]
  exact List.getElem_set_self _

theorem Chunk.get_light_set_light_ne (c : Chunk) {x y z a b d : Nat} (v : Nat)
    (h : ¬(a = x ∧ b = y ∧ d = z)) :
    (c.set_light x y z v).get_light a b d = c.get_light a b d := by
  by_cases hset : x < CHUNK_SIZE ∧ y < CHUNK_SIZE ∧ z < CHUNK_SIZE
  · unfold Chunk.set_light
    rw [if_pos hset]
    unfold Chunk.get_light
    split
    · next hget =>
      show (c.light_levels.set (Chunk.index x y z) (min v MAX_LIGHT_LEVEL)).get _ = _
      rw [List.get_eq_getElem, List.get_eq_getElem]
      refine List.getElem_set_ne ?_ _
      intro hidx
      exact h (Chunk.index_inj hget.1 hget.2.1 hget.2.2 hset.1 hset.2.1 hset.2.2 hidx.symm)
    · rfl
  · unfold Chunk.set_light
    rw [if_neg hset]

theorem Chunk.get_block_set_block_self (c : Chunk) {x y z : Nat}
    (hx : x < CHUNK_SIZE) (hy : y < CHUNK_SIZE) (hz : z < CHUNK_SIZE) (b : Nat) :
    (c.set_block x y z b).get_block x y z = b := by
  unfold Chunk.set_block Chunk.get_block
  rw [if_pos ⟨hx, hy, hz⟩, dif_pos ⟨hx, hy, hz⟩]
  show (c.blocks.set (Chunk.index x y z) b).get _ = _
  rw [List.get_eq_getElem]
  exact List.getElem_set_self _

theorem Chunk.get_block_set_block_ne (c : Chunk) {x y z a b d : Nat} (v : Nat)
    (h : ¬(a = x ∧ b = y ∧ d = z)) :
    (c.set_block x y z v).get_block a b d = c.get_block a b d := by
  by_cases hset : x < CHUNK_SIZE ∧ y < CHUNK_SIZE ∧ z < CHUNK_SIZE
  · unfold Chunk.set_block
    rw [if_pos hset]
    unfold Chunk.get_block
    split
    · next hget =>
      show (c.blocks.set (Chunk.index x y z) v).get _ = _
      rw [List.get_eq_getElem, List.get_eq_getElem]
      refine List.getElem_set_ne ?_ _
      intro hidx
      exact h (Chunk.index_inj hget.1 hget.2.1 hget.2.2 hset.1 hset.2.1 hset.2.2 hidx.symm)
    · rfl
  · unfold Chunk.set_block
    rw [if_neg hset]

theorem Chunk.get_block_new (k : ChunkCoord) (x y z : Nat) :
    (Chunk.new k).get_block x y z = BlockId.AIR := by
  unfold Chunk.get_block Chunk.new
  split
  · exact List.get_replicate _ _
  · rfl

theorem Chunk.get_light_new (k : ChunkCoord) (x y z : Nat) :
    (Chunk.new k).get_light x y z = MAX_LIGHT_LEVEL := by
  unfold Chunk.get_light Chunk.new
  split
  · exact List.get_replicate _ _
  · rfl

theorem Chunk.get_light_le_new (k : ChunkCoord) (x y z : Nat) :
    (Chunk.new k).get_light x y z ≤ MAX_LIGHT_LEVEL := by
  rw [Chunk.get_light_new]

/-- C1: the four Chunk Store primitives are total: out-of-range `get_block`
returns air and out-of-range `get_light` returns 15, out-of-range `set_block`
and `set_light` are no-ops, in-range `get_block` reads back what `set_block`
stored, and `set_light` clamps the stored level to at most 15. -/
theorem C1_chunk_primitives_total (c : Chunk) (x y z id level : Nat)
    (hout : CHUNK_SIZE ≤ x ∨ CHUNK_SIZE ≤ y ∨ CHUNK_SIZE ≤ z)
    (a b d : Fin CHUNK_SIZE) :
    c.get_block x y z = BlockId.AIR ∧
    c.get_light x y z = MAX_LIGHT_LEVEL ∧
    c.set_block x y z id = c ∧
    c.set_light x y z level = c ∧
    (c.set_block a b d id).get_block a b d = id ∧
    (c.set_light a b d level).get_light a b d = min level MAX_LIGHT_LEVEL := by
  have hnin : ¬(x < CHUNK_SIZE ∧ y < CHUNK_SIZE ∧ z < CHUNK_SIZE) := by omega
  refine ⟨?_, ?_, ?_, ?_, ?_, ?_⟩
  · unfold Chunk.get_block; rw [dif_neg hnin]
  · unfold Chunk.get_light; rw [dif_neg hnin]
  · unfold Chunk.set_block; rw [if_neg hnin]
  · unfold Chunk.set_light; rw [if_neg hnin]
  · exact Chunk.get_block_set_block_self c a.isLt b.isLt d.isLt id
  · exact Chunk.get_light_set_light_self c a.isLt b.isLt d.isLt level

/-- Witness for C1 at concrete inputs. -/
theorem C1_witness :
    (CHUNK_SIZE ≤ 16 ∨ CHUNK_SIZE ≤ 0 ∨ CHUNK_SIZE ≤ 0) ∧
    ((Chunk.new ⟨0, 0, 0⟩).get_block 16 0 0 = BlockId.AIR ∧
     (Chunk.new ⟨0, 0, 0⟩).get_light 16 0 0 = MAX_LIGHT_LEVEL ∧
     (Chunk.new ⟨0, 0, 0⟩).set_block 16 0 0 7 = Chunk.new ⟨0, 0, 0⟩ ∧
     (Chunk.new ⟨0, 0, 0⟩).set_light 16 0 0 99 = Chunk.new ⟨0, 0, 0⟩ ∧
     ((Chunk.new ⟨0, 0, 0⟩).set_block 1 2 3 7).get_block 1 2 3 = 7 ∧
     ((Chunk.new ⟨0, 0, 0⟩).set_light 1 2 3 99).get_light 1 2 3 = min 99 MAX_LIGHT_LEVEL) :=
  ⟨Or.inl (by decide),
   C1_chunk_primitives_total (Chunk.new ⟨0, 0, 0⟩) 16 0 0 7 99 (Or.inl (by decide))
     ⟨1, by decide⟩ ⟨2, by decide⟩ ⟨3, by decide⟩⟩

/-- C10: a freshly constructed chunk has the given coordinate as identity,
every voxel's block is air, and every voxel's light is 15. -/
theorem C10_new_chunk_air_and_bright (k : ChunkCoord) (x y z : Fin CHUNK_SIZE) :
    (Chunk.new k).coord = k ∧
    (Chunk.new k).get_block x y z = BlockId.AIR ∧
    (Chunk.new k).get_light x y z = MAX_LIGHT_LEVEL :=
  ⟨rfl, Chunk.get_block_new k x y z, Chunk.get_light_new k x y z⟩

/-! ## Light propagation (`world/chunk.rs`) -/

/-- `NeighborLightData` (`world/chunk.rs`): optional references to the six
face-adjacent chunks. -/
structure NeighborLightData where
  neg_x : Option Chunk
  pos_x : Option Chunk
  neg_y : Option Chunk
  pos_y : Option Chunk
  neg_z : Option Chunk
  pos_z : Option Chunk

/-- `NeighborLightData::none`. -/
def NeighborLightData.none : NeighborLightData :=
  ⟨Option.none, Option.none, Option.none, Option.none, Option.none, Option.none⟩

/-- `i as usize` applied to an `i32` value: two's-complement reinterpretation
into 64 bits (a negative `i32` becomes a huge `usize`, which every chunk
accessor treats as out of range). -/
def usizeOf (i : Int) : Nat := (i % (2 ^ 64)).toNat

/-- `Chunk::get_light_or_neighbor` (`world/chunk.rs` 340-381): light of an
(x,y,z) possibly outside this chunk, resolved through the neighbor data;
missing neighbors contribute 0. -/
def Chunk.get_light_or_neighbor (c : Chunk) (x y z : Int)
    (neighbors : NeighborLightData) : Nat :=
  if 0 ≤ x ∧ x < (CHUNK_SIZE : Int) ∧ 0 ≤ y ∧ y < (CHUNK_SIZE : Int) ∧
      0 ≤ z ∧ z < (CHUNK_SIZE : Int) then
    c.get_light x.toNat y.toNat z.toNat
  else
    let xcase : Option Nat :=
      if x < 0 then
        neighbors.neg_x.map fun n => n.get_light (CHUNK_SIZE - 1) (usizeOf y) (usizeOf z)
      else if (CHUNK_SIZE : Int) ≤ x then
        neighbors.pos_x.map fun n => n.get_light 0 (usizeOf y) (usizeOf z)
      else Option.none
    let ycase : Option Nat :=
      if y < 0 then
        neighbors.neg_y.map fun n => n.get_light (usizeOf x) (CHUNK_SIZE - 1) (usizeOf z)
      else if (CHUNK_SIZE : Int) ≤ y then
        neighbors.pos_y.map fun n => n.get_light (usizeOf x) 0 (usizeOf z)
      else Option.none
    let zcase : Option Nat :=
      if z < 0 then
        neighbors.neg_z.map fun n => n.get_light (usizeOf x) (usizeOf y) (CHUNK_SIZE - 1)
      else if (CHUNK_SIZE : Int) ≤ z then
        neighbors.pos_z.map fun n => n.get_light (usizeOf x) (usizeOf y) 0
      else Option.none
    match xcase with
    | some v => v
    | none =>
      match ycase with
      | some v => v
      | none =>
        match zcase with
        | some v => v
        | none => 0

/-- `Chunk::propagate_light_from_neighbors_ext` (`world/chunk.rs` 385-408):
raise a voxel to `max(six face-adjacent lights) - 1` when that is higher;
returns the updated chunk and whether a write happened. -/
def Chunk.propagate_light_from_neighbors_ext (c : Chunk) (x y z : Nat)
    (neighbors : NeighborLightData) : Chunk × Bool :=
  let current_light := c.get_light x y z
  let xi : Int := x
  let yi : Int := y
  let zi : Int := z
  let m1 := max 0 (c.get_light_or_neighbor (xi - 1) yi zi neighbors)
  let m2 := max m1 (c.get_light_or_neighbor (xi + 1) yi zi neighbors)
  let m3 := max m2 (c.get_light_or_neighbor xi (yi - 1) zi neighbors)
  let m4 := max m3 (c.get_light_or_neighbor xi (yi + 1) zi neighbors)
  let m5 := max m4 (c.get_light_or_neighbor xi yi (zi - 1) neighbors)
  let m6 := max m5 (c.get_light_or_neighbor xi yi (zi + 1) neighbors)
  let propagated := m6 - 1
  if current_light < propagated then (c.set_light x y z propagated, true)
  else (c, false)

/-- Voxel visit order of the forward sweep: ascending x inside z inside y. -/
def forwardOrder : List (Nat × Nat × Nat) :=
  (List.range CHUNK_SIZE).flatMap fun y =>
    (List.range CHUNK_SIZE).flatMap fun z =>
      (List.range CHUNK_SIZE).map fun x => (x, y, z)

/-- Voxel visit order of the backward sweep: all three loops descending. -/
def backwardOrder : List (Nat × Nat × Nat) :=
  (List.range CHUNK_SIZE).reverse.flatMap fun y =>
    (List.range CHUNK_SIZE).reverse.flatMap fun z =>
      (List.range CHUNK_SIZE).reverse.map fun x => (x, y, z)

/-- Sweep body shared by both flood loops (`chunk.rs` 281-306 and
`block_interaction.rs` 663-730 have the identical shape): skip non-air
voxels, otherwise run the per-voxel propagation `g` and OR its change flag
into the accumulated `any_change`. -/
def voxelSweepStep (g : Chunk → Nat → Nat → Nat → Chunk × Bool)
    (acc : Chunk × Bool) (p : Nat × Nat × Nat) : Chunk × Bool :=
  if is_air (acc.1.get_block p.1 p.2.1 p.2.2) then
    let r := g acc.1 p.1 p.2.1 p.2.2
    (r.1, acc.2 || r.2)
  else acc

/-- One loop iteration: a full forward sweep followed by a full backward
sweep, with a single shared `any_change` flag. -/
def sweepOnce (g : Chunk → Nat → Nat → Nat → Chunk × Bool) (c : Chunk) :
    Chunk × Bool :=
  backwardOrder.foldl (voxelSweepStep g)
    (forwardOrder.foldl (voxelSweepStep g) (c, false))

/-- The `for _iteration in 0..fuel { ..sweeps..; if !any_change { break } }`
loop shape shared by both flood loops: the resulting chunk. -/
def loopAux (sweep : Chunk → Chunk × Bool) : Nat → Chunk → Chunk
  | 0, c => c
  | fuel + 1, c =>
    let r := sweep c
    if r.2 then loopAux sweep fuel r.1 else r.1

/-- The number of sweep-pairs the same loop executes before stopping. -/
def loopCount (sweep : Chunk → Chunk × Bool) : Nat → Chunk → Nat
  | 0, _ => 0
  | fuel + 1, c =>
    let r := sweep c
    if r.2 then loopCount sweep fuel r.1 + 1 else 1

/-- One forward+backward sweep pair of `calculate_skylight_with_neighbors`. -/
def sweepPair (neighbors : NeighborLightData) (c : Chunk) : Chunk × Bool :=
  sweepOnce (fun c x y z => c.propagate_light_from_neighbors_ext x y z neighbors) c

/-- The bounded flood-fill loop of `calculate_skylight_with_neighbors`. -/
def floodLoop (neighbors : NeighborLightData) (fuel : Nat) (c : Chunk) : Chunk :=
  loopAux (sweepPair neighbors) fuel c

/-- Executed sweep-pair count of `calculate_skylight_with_neighbors`'s loop. -/
def floodLoopCount (neighbors : NeighborLightData) (fuel : Nat) (c : Chunk) : Nat :=
  loopCount (sweepPair neighbors) fuel c

/-- Initial `in_shadow` value of a column in
`calculate_skylight_with_neighbors`: shadowed when the chunk above reads
less than full light or has a solid block at its bottom voxel. -/
def column_shadow_start (neighbors : NeighborLightData) (x z : Nat) : Bool :=
  match neighbors.pos_y with
  | some above =>
      decide (above.get_light x 0 z < MAX_LIGHT_LEVEL) || !is_air (above.get_block x 0 z)
  | none => false

/-- Top-to-bottom body of the column seeding loop (identical in
`chunk.rs` 254-270 and `block_interaction.rs` 580-597): air voxels get 15
while unshadowed and 0 once shadowed; solid voxels get 0 and shadow the rest
of the column. -/
def seedColumnStep (x z : Nat) (acc : Chunk × Bool) (y : Nat) : Chunk × Bool :=
  if is_air (acc.1.get_block x y z) then
    if !acc.2 then (acc.1.set_light x y z MAX_LIGHT_LEVEL, acc.2)
    else (acc.1.set_light x y z 0, acc.2)
  else (acc.1.set_light x y z 0, true)

/-- Seed one (x,z) column from top to bottom starting from a given shadow
state. -/
def seedColumn (c : Chunk) (x z : Nat) (shadow0 : Bool) : Chunk :=
  ((List.range CHUNK_SIZE).reverse.foldl (seedColumnStep x z) (c, shadow0)).1

/-- Column visit order of the seeding pass: ascending x inside z. -/
def columnOrder : List (Nat × Nat) :=
  (List.range CHUNK_SIZE).flatMap fun z =>
    (List.range CHUNK_SIZE).map fun x => (x, z)

/-- First pass of `calculate_skylight_with_neighbors`: seed every column. -/
def seedPass (c : Chunk) (neighbors : NeighborLightData) : Chunk :=
  columnOrder.foldl
    (fun c p => seedColumn c p.1 p.2 (column_shadow_start neighbors p.1 p.2)) c

/-- `Chunk::calculate_skylight_with_neighbors` (`world/chunk.rs` 231-312):
column seeding followed by the capped flood-fill loop. -/
def Chunk.calculate_skylight_with_neighbors (c : Chunk)
    (neighbors : NeighborLightData) : Chunk :=
  floodLoop neighbors (CHUNK_SIZE * 2) (seedPass c neighbors)

/-- `Chunk::calculate_skylight`: the isolated pass, with no neighbors. -/
def Chunk.calculate_skylight (c : Chunk) : Chunk :=
  c.calculate_skylight_with_neighbors NeighborLightData.none

/-! ## Cache-based light propagation (`systems/block_interaction.rs`) -/

/-- `CachedLightData` (`block_interaction.rs` 293-328): a read-only snapshot
of one chunk's two arrays. -/
structure CachedLightData where
  light_levels : List Nat
  blocks : List BlockId
  light_len : light_levels.length = CHUNK_VOL
  blocks_len : blocks.length = CHUNK_VOL

/-- `CachedLightData::from_chunk`. -/
def CachedLightData.from_chunk (c : Chunk) : CachedLightData :=
  ⟨c.light_levels, c.blocks, c.light_len, c.blocks_len⟩

/-- `CachedLightData::get_light`: out of range reads 15 ("full light
outside"). -/
def CachedLightData.get_light (d : CachedLightData) (x y z : Nat) : Nat :=
  if h : x < CHUNK_SIZE ∧ y < CHUNK_SIZE ∧ z < CHUNK_SIZE then
    d.light_levels.get ⟨Chunk.index x y z, by
      rw [d.light_len]; exact Chunk.index_lt h.1 h.2.1 h.2.2⟩
  else 15

/-- `CachedLightData::get_block`: out of range reads air. -/
def CachedLightData.get_block (d : CachedLightData) (x y z : Nat) : BlockId :=
  if h : x < CHUNK_SIZE ∧ y < CHUNK_SIZE ∧ z < CHUNK_SIZE then
    d.blocks.get ⟨Chunk.index x y z, by
      rw [d.blocks_len]; exact Chunk.index_lt h.1 h.2.1 h.2.2⟩
  else BlockId.AIR

/-- The `HashMap<ChunkCoord, CachedLightData>` snapshot cache, as a lookup
function. -/
abbrev LightCache := ChunkCoord → Option CachedLightData

/-- The `get_cached_light` closure of `propagate_light_from_cache`
(`block_interaction.rs` 644-650): a coordinate missing from the cache
contributes 0. -/
def get_cached_light (cache : LightCache) (neighbor_coord : ChunkCoord)
    (x y z : Nat) : Nat :=
  match cache neighbor_coord with
  | some d => d.get_light x y z
  | none => 0

/-- The bounded upward walk of `is_column_shadowed`. -/
def shadow_above (cache : LightCache) (x z : Nat) : Nat → ChunkCoord → Bool
  | 0, _ => false
  | n + 1, k =>
    match cache k with
    | some d =>
        if (List.range CHUNK_SIZE).any (fun y => !is_air (d.get_block x y z)) then
          true
        else shadow_above cache x z n ⟨k.x, k.y + 1, k.z⟩
    | none => false

/-- `is_column_shadowed` (`block_interaction.rs` 606-635): trace up to 8
chunks above looking for any solid block; absent chunks mean open sky. -/
def is_column_shadowed (x z : Nat) (chunk_coord : ChunkCoord)
    (cache : LightCache) : Bool :=
  shadow_above cache x z 8 ⟨chunk_coord.x, chunk_coord.y + 1, chunk_coord.z⟩

/-- Per-voxel body of `propagate_light_from_cache` (`block_interaction.rs`
670-693 and the identical backward copy): in-chunk neighbors are read
directly with range guards, cross-chunk neighbors through the cache. -/
def cacheNeighborMax (coord : ChunkCoord) (cache : LightCache) (c : Chunk)
    (x y z : Nat) : Nat :=
  let m1 := if 0 < x then max 0 (c.get_light (x - 1) y z) else 0
  let m2 := if x < CHUNK_SIZE - 1 then max m1 (c.get_light (x + 1) y z) else m1
  let m3 := if 0 < y then max m2 (c.get_light x (y - 1) z) else m2
  let m4 := if y < CHUNK_SIZE - 1 then max m3 (c.get_light x (y + 1) z) else m3
  let m5 := if 0 < z then max m4 (c.get_light x y (z - 1)) else m4
  let m6 := if z < CHUNK_SIZE - 1 then max m5 (c.get_light x y (z + 1)) else m5
  let m7 := if x = 0 then
      max m6 (get_cached_light cache ⟨coord.x - 1, coord.y, coord.z⟩ (CHUNK_SIZE - 1) y z)
    else m6
  let m8 := if x = CHUNK_SIZE - 1 then
      max m7 (get_cached_light cache ⟨coord.x + 1, coord.y, coord.z⟩ 0 y z)
    else m7
  let m9 := if y = 0 then
      max m8 (get_cached_light cache ⟨coord.x, coord.y - 1, coord.z⟩ x (CHUNK_SIZE - 1) z)
    else m8
  let m10 := if y = CHUNK_SIZE - 1 then
      max m9 (get_cached_light cache ⟨coord.x, coord.y + 1, coord.z⟩ x 0 z)
    else m9
  let m11 := if z = 0 then
      max m10 (get_cached_light cache ⟨coord.x, coord.y, coord.z - 1⟩ x y (CHUNK_SIZE - 1))
    else m10
  if z = CHUNK_SIZE - 1 then
    max m11 (get_cached_light cache ⟨coord.x, coord.y, coord.z + 1⟩ x y 0)
  else m11

/-- Final comparison and write of the per-voxel body. -/
def cachePropagateVoxel (coord : ChunkCoord) (cache : LightCache) (c : Chunk)
    (x y z : Nat) : Chunk × Bool :=
  let current_light := c.get_light x y z
  let propagated := cacheNeighborMax coord cache c x y z - 1
  if current_light < propagated then (c.set_light x y z propagated, true)
  else (c, false)

/-- Forward+backward sweep of `propagate_light_from_cache`. -/
def cacheSweepPair (coord : ChunkCoord) (cache : LightCache) (c : Chunk) :
    Chunk × Bool :=
  sweepOnce (cachePropagateVoxel coord cache) c

/-- The bounded iteration loop of `propagate_light_from_cache`. -/
def cacheFloodLoop (coord : ChunkCoord) (cache : LightCache)
    (fuel : Nat) (c : Chunk) : Chunk :=
  loopAux (cacheSweepPair coord cache) fuel c

/-- Executed sweep-pair count of `propagate_light_from_cache`'s loop. -/
def cacheFloodLoopCount (coord : ChunkCoord) (cache : LightCache)
    (fuel : Nat) (c : Chunk) : Nat :=
  loopCount (cacheSweepPair coord cache) fuel c

/-- `propagate_light_from_cache` (`block_interaction.rs` 639-736): the
flood-only pass. -/
def propagate_light_from_cache (c : Chunk) (coord : ChunkCoord)
    (cache : LightCache) : Chunk :=
  cacheFloodLoop coord cache (CHUNK_SIZE * 2) c

/-- `calculate_skylight_with_cache` (`block_interaction.rs` 565-602): the
reset+flood pass of the cache path; column seeding (same loop body as the
neighbor path) with `is_column_shadowed`, then one flood-only pass. -/
def calculate_skylight_with_cache (c : Chunk) (coord : ChunkCoord)
    (cache : LightCache) : Chunk :=
  let seeded := columnOrder.foldl
    (fun c p => seedColumn c p.1 p.2 (is_column_shadowed p.1 p.2 coord cache)) c
  propagate_light_from_cache seeded coord cache

/-- Chained flood-only passes: passes 1..3 of `remesh_modified_chunks` apply
`propagate_light_from_cache` repeatedly, refreshing the snapshot cache in
between, so the caches of the successive passes are unrelated. -/
def floodChain (coord : ChunkCoord) (c : Chunk) (caches : List LightCache) : Chunk :=
  caches.foldl (fun c k => propagate_light_from_cache c coord k) c

/-! ## Fold helpers -/

theorem foldl_pres {α β : Type _} {f : β → α → β} {P : β → Prop} (l : List α)
    (hstep : ∀ b a, a ∈ l → P b → P (f b a)) :
    ∀ b, P b → P (l.foldl f b) := by
  induction l with
  | nil => intro b hb; exact hb
  | cons hd tl ih =>
    intro b hb
    rw [List.foldl_cons]
    exact ih (fun b a ha => hstep b a (List.mem_cons_of_mem hd ha)) _
      (hstep b hd (List.mem_cons_self hd tl) hb)

theorem foldl_establish {α β : Type _} {f : β → α → β} {Q : α → β → Prop} (l : List α)
    (hstep : ∀ b a, Q a (f b a))
    (hpres : ∀ b a a', Q a' b → Q a' (f b a)) :
    ∀ b a, a ∈ l → Q a (l.foldl f b) := by
  induction l with
  | nil => intro _ _ h; cases h
  | cons hd tl ih =>
    intro b a ha
    rw [List.foldl_cons]
    rcases List.mem_cons.mp ha with rfl | ha'
    · exact foldl_pres tl (fun b x _ h => hpres b x a h) _ (hstep b a)
    · exact ih _ a ha'

/-! ## The light invariant (C2) and monotonicity (C3) machinery -/

/-- The per-voxel invariant of C2: the stored light is at most 15 and a
non-air voxel reads light 0. -/
def okAt (c : Chunk) (x y z : Nat) : Prop :=
  c.get_light x y z ≤ MAX_LIGHT_LEVEL ∧
  (c.get_block x y z = BlockId.AIR ∨ c.get_light x y z = 0)

/-- The invariant at every voxel (trivially true out of range, by the
getters' defaults). -/
def okAll (c : Chunk) : Prop := ∀ x y z, okAt c x y z

/-- Every stored light value is at most 15. -/
def lightBounded (c : Chunk) : Prop :=
  ∀ x y z, c.get_light x y z ≤ MAX_LIGHT_LEVEL

theorem is_air_iff {b : BlockId} : is_air b = true ↔ b = BlockId.AIR := by
  simp [is_air, BlockId.AIR]

theorem okAt_out (c : Chunk) {x y z : Nat}
    (h : ¬(x < CHUNK_SIZE ∧ y < CHUNK_SIZE ∧ z < CHUNK_SIZE)) : okAt c x y z := by
  constructor
  · unfold Chunk.get_light; rw [dif_neg h]
  · left; unfold Chunk.get_block; rw [dif_neg h]

theorem Chunk.set_light_out (c : Chunk) {x y z : Nat} (v : Nat)
    (h : ¬(x < CHUNK_SIZE ∧ y < CHUNK_SIZE ∧ z < CHUNK_SIZE)) :
    c.set_light x y z v = c := by
  unfold Chunk.set_light; rw [if_neg h]

theorem okAt_set_light_self (c : Chunk) (x y z v : Nat)
    (hgood : c.get_block x y z = BlockId.AIR ∨ min v MAX_LIGHT_LEVEL = 0) :
    okAt (c.set_light x y z v) x y z := by
  by_cases hin : x < CHUNK_SIZE ∧ y < CHUNK_SIZE ∧ z < CHUNK_SIZE
  · constructor
    · rw [Chunk.get_light_set_light_self c hin.1 hin.2.1 hin.2.2]; omega
    · rcases hgood with h | h
      · left; rw [Chunk.get_block_set_light]; exact h
      · right; rw [Chunk.get_light_set_light_self c hin.1 hin.2.1 hin.2.2]; exact h
  · exact okAt_out _ hin

theorem okAt_set_light_other (c : Chunk) {x y z a b d : Nat} (v : Nat)
    (h : okAt c a b d) (hne : ¬(a = x ∧ b = y ∧ d = z)) :
    okAt (c.set_light x y z v) a b d := by
  unfold okAt
  rw [Chunk.get_light_set_light_ne c v hne, Chunk.get_block_set_light]
  exact h

theorem lightBounded_set_light (c : Chunk) (x y z v : Nat) (hb : lightBounded c) :
    lightBounded (c.set_light x y z v) := by
  intro a b d
  by_cases heq : a = x ∧ b = y ∧ d = z
  · obtain ⟨rfl, rfl, rfl⟩ := heq
    by_cases hin : a < CHUNK_SIZE ∧ b < CHUNK_SIZE ∧ d < CHUNK_SIZE
    · rw [Chunk.get_light_set_light_self c hin.1 hin.2.1 hin.2.2]; omega
    · rw [Chunk.set_light_out c v hin]; exact hb a b d
  · rw [Chunk.get_light_set_light_ne c v heq]; exact hb a b d

/-- Both per-voxel propagation bodies either leave the chunk unchanged with
flag `false`, or raise the visited voxel's stored light and report `true`. -/
def stepWrites (g : Chunk → Nat → Nat → Nat → Chunk × Bool) : Prop :=
  ∀ c x y z, g c x y z = (c, false) ∨
    ∃ v, c.get_light x y z < v ∧ g c x y z = (c.set_light x y z v, true)

theorem stepWrites_propagate_ext (neighbors : NeighborLightData) :
    stepWrites (fun c x y z => c.propagate_light_from_neighbors_ext x y z neighbors) := by
  intro c x y z
  unfold Chunk.propagate_light_from_neighbors_ext
  dsimp only
  split
  · next h => exact Or.inr ⟨_, h, rfl⟩
  · exact Or.inl rfl

theorem stepWrites_cachePropagate (coord : ChunkCoord) (cache : LightCache) :
    stepWrites (cachePropagateVoxel coord cache) := by
  intro c x y z
  unfold cachePropagateVoxel
  dsimp only
  split
  · next h => exact Or.inr ⟨_, h, rfl⟩
  · exact Or.inl rfl

theorem voxelSweepStep_okAll {g} (hg : stepWrites g) (acc : Chunk × Bool)
    (p : Nat × Nat × Nat) (h : okAll acc.1) : okAll (voxelSweepStep g acc p).1 := by
  unfold voxelSweepStep
  split
  · next hair =>
    dsimp only
    rcases hg acc.1 p.1 p.2.1 p.2.2 with hc | ⟨v, _, hc⟩
    · rw [hc]; exact h
    · rw [hc]
      intro a b d
      by_cases heq : a = p.1 ∧ b = p.2.1 ∧ d = p.2.2
      · obtain ⟨rfl, rfl, rfl⟩ := heq
        exact okAt_set_light_self _ _ _ _ _ (Or.inl (is_air_iff.mp hair))
      · exact okAt_set_light_other _ _ (h a b d) heq
  · exact h

theorem voxelSweepStep_mono {g} (hg : stepWrites g) (acc : Chunk × Bool)
    (p : Nat × Nat × Nat) (hb : lightBounded acc.1) :
    lightBounded (voxelSweepStep g acc p).1 ∧
    ∀ a b d, acc.1.get_light a b d ≤ (voxelSweepStep g acc p).1.get_light a b d := by
  unfold voxelSweepStep
  split
  · dsimp only
    rcases hg acc.1 p.1 p.2.1 p.2.2 with hc | ⟨v, hv, hc⟩
    · rw [hc]; exact ⟨hb, fun _ _ _ => le_rfl⟩
    · rw [hc]
      refine ⟨lightBounded_set_light _ _ _ _ _ hb, ?_⟩
      intro a b d
      by_cases heq : a = p.1 ∧ b = p.2.1 ∧ d = p.2.2
      · obtain ⟨rfl, rfl, rfl⟩ := heq
        by_cases hin : p.1 < CHUNK_SIZE ∧ p.2.1 < CHUNK_SIZE ∧ p.2.2 < CHUNK_SIZE
        · rw [Chunk.get_light_set_light_self _ hin.1 hin.2.1 hin.2.2]
          have := hb p.1 p.2.1 p.2.2
          omega
        · rw [Chunk.set_light_out _ v hin]
      · rw [Chunk.get_light_set_light_ne _ v heq]
  · exact ⟨hb, fun _ _ _ => le_rfl⟩

theorem voxelSweepStep_false {g} (hg : stepWrites g) (acc : Chunk × Bool)
    (p : Nat × Nat × Nat) :
    (voxelSweepStep g acc p).2 = false →
    (voxelSweepStep g acc p).1 = acc.1 ∧ acc.2 = false := by
  unfold voxelSweepStep
  split
  · dsimp only
    rcases hg acc.1 p.1 p.2.1 p.2.2 with hc | ⟨v, _, hc⟩
    · rw [hc]; intro h2; simp only [Bool.or_false] at h2; exact ⟨rfl, h2⟩
    · rw [hc]; intro h2; simp at h2
  · intro h2; exact ⟨rfl, h2⟩

theorem sweepFold_false {g} (hg : stepWrites g) (l : List (Nat × Nat × Nat)) :
    ∀ acc : Chunk × Bool, (l.foldl (voxelSweepStep g) acc).2 = false →
    (l.foldl (voxelSweepStep g) acc).1 = acc.1 ∧ acc.2 = false := by
  induction l with
  | nil => intro acc h; exact ⟨rfl, h⟩
  | cons hd tl ih =>
    intro acc h
    rw [List.foldl_cons] at h ⊢
    obtain ⟨h1, h2⟩ := ih _ h
    obtain ⟨h3, h4⟩ := voxelSweepStep_false hg acc hd h2
    exact ⟨h1.trans h3, h4⟩

theorem sweepOnce_okAll {g} (hg : stepWrites g) (c : Chunk) (h : okAll c) :
    okAll (sweepOnce g c).1 := by
  unfold sweepOnce
  have H : ∀ (l : List (Nat × Nat × Nat)) (st : Chunk × Bool), okAll st.1 →
      okAll (l.foldl (voxelSweepStep g) st).1 := by
    intro l
    exact foldl_pres l (fun st p _ hp => voxelSweepStep_okAll hg st p hp)
  exact H backwardOrder _ (H forwardOrder (c, false) h)

theorem sweepOnce_mono {g} (hg : stepWrites g) (c : Chunk) (hb : lightBounded c) :
    lightBounded (sweepOnce g c).1 ∧
    ∀ a b d, c.get_light a b d ≤ (sweepOnce g c).1.get_light a b d := by
  unfold sweepOnce
  have H : ∀ (l : List (Nat × Nat × Nat)) (st : Chunk × Bool),
      (lightBounded st.1 ∧ ∀ a b d, c.get_light a b d ≤ st.1.get_light a b d) →
      (lightBounded (l.foldl (voxelSweepStep g) st).1 ∧
       ∀ a b d, c.get_light a b d ≤ (l.foldl (voxelSweepStep g) st).1.get_light a b d) := by
    intro l
    refine foldl_pres l ?_
    rintro st p _ ⟨h1, h2⟩
    have hm := voxelSweepStep_mono hg st p h1
    exact ⟨hm.1, fun a b d => le_trans (h2 a b d) (hm.2 a b d)⟩
  exact H backwardOrder _ (H forwardOrder (c, false) ⟨hb, fun _ _ _ => le_rfl⟩)

theorem sweepOnce_false {g} (hg : stepWrites g) (c : Chunk)
    (h : (sweepOnce g c).2 = false) : (sweepOnce g c).1 = c := by
  unfold sweepOnce at *
  obtain ⟨h1, h2⟩ := sweepFold_false hg backwardOrder _ h
  obtain ⟨h3, _⟩ := sweepFold_false hg forwardOrder _ h2
  rw [h1, h3]

/-! ## Loop lemmas -/

/-- `n` successive sweep-pairs. -/
def iterSweep (sweep : Chunk → Chunk × Bool) : Nat → Chunk → Chunk
  | 0, c => c
  | n + 1, c => iterSweep sweep n (sweep c).1

theorem loopCount_le (sweep : Chunk → Chunk × Bool) (fuel : Nat) (c : Chunk) :
    loopCount sweep fuel c ≤ fuel := by
  induction fuel generalizing c with
  | zero => simp [loopCount]
  | succ n ih =>
    simp only [loopCount]
    split
    · have := ih (sweep c).1
      omega
    · omega

theorem loopAux_iter (sweep : Chunk → Chunk × Bool) (fuel : Nat) (c : Chunk) :
    loopAux sweep fuel c = iterSweep sweep (loopCount sweep fuel c) c := by
  induction fuel generalizing c with
  | zero => simp [loopAux, loopCount, iterSweep]
  | succ n ih =>
    simp only [loopAux, loopCount]
    split
    · rw [ih (sweep c).1]
      rfl
    · rfl

theorem loopAux_stop (sweep : Chunk → Chunk × Bool)
    (hs : ∀ c, (sweep c).2 = false → (sweep c).1 = c) (fuel : Nat) (c : Chunk) :
    loopCount sweep fuel c = fuel ∨ (sweep (loopAux sweep fuel c)).2 = false := by
  induction fuel generalizing c with
  | zero => exact Or.inl rfl
  | succ n ih =>
    simp only [loopAux, loopCount]
    split
    · next hch =>
      rcases ih (sweep c).1 with h | h
      · exact Or.inl (by omega)
      · exact Or.inr h
    · next hch =>
      refine Or.inr ?_
      have hfalse : (sweep c).2 = false := by
        revert hch; cases (sweep c).2 <;> simp
      rw [hs c hfalse, hfalse]

theorem loopAux_pres (sweep : Chunk → Chunk × Bool) (P : Chunk → Prop)
    (hs : ∀ c, P c → P (sweep c).1) (fuel : Nat) (c : Chunk) (h : P c) :
    P (loopAux sweep fuel c) := by
  induction fuel generalizing c with
  | zero => exact h
  | succ n ih =>
    simp only [loopAux]
    split
    · exact ih (sweep c).1 (hs c h)
    · exact hs c h

/-! ## Instantiated sweep lemmas (kept syntactic for the kernel's sake) -/

theorem sweepPair_okAll (nbrs : NeighborLightData) (c : Chunk) (h : okAll c) :
    okAll (sweepPair nbrs c).1 := by
  unfold sweepPair
  exact sweepOnce_okAll (stepWrites_propagate_ext nbrs) c h

theorem sweepPair_mono (nbrs : NeighborLightData) (c : Chunk)
    (hb : lightBounded c) :
    lightBounded (sweepPair nbrs c).1 ∧
    ∀ a b d, c.get_light a b d ≤ (sweepPair nbrs c).1.get_light a b d := by
  unfold sweepPair
  exact sweepOnce_mono (stepWrites_propagate_ext nbrs) c hb

theorem sweepPair_false (nbrs : NeighborLightData) (c : Chunk)
    (h : (sweepPair nbrs c).2 = false) : (sweepPair nbrs c).1 = c := by
  unfold sweepPair at *
  exact sweepOnce_false (stepWrites_propagate_ext nbrs) c h

theorem cacheSweepPair_okAll (coord : ChunkCoord) (cache : LightCache)
    (c : Chunk) (h : okAll c) : okAll (cacheSweepPair coord cache c).1 := by
  unfold cacheSweepPair
  exact sweepOnce_okAll (stepWrites_cachePropagate coord cache) c h

theorem cacheSweepPair_false (coord : ChunkCoord) (cache : LightCache) (c : Chunk)
    (h : (cacheSweepPair coord cache c).2 = false) :
    (cacheSweepPair coord cache c).1 = c := by
  unfold cacheSweepPair at *
  exact sweepOnce_false (stepWrites_cachePropagate coord cache) c h

/-- C8: during flood-fill propagation, a face-adjacent voxel outside the
current chunk contributes light 0 when no neighbor chunk (neighbor-reference
path) or no snapshot (cached path) is available on that side — not the 15
that the chunk's own out-of-range `get_light` returns. -/
theorem C8_missing_neighbor_contributes_zero (c : Chunk) (nbrs : NeighborLightData)
    (cache : LightCache) (k : ChunkCoord) (u v : Fin CHUNK_SIZE) (a b d : Nat) :
    c.get_light_or_neighbor (-1) u v { nbrs with neg_x := Option.none } = 0 ∧
    c.get_light_or_neighbor CHUNK_SIZE u v { nbrs with pos_x := Option.none } = 0 ∧
    c.get_light_or_neighbor u (-1) v { nbrs with neg_y := Option.none } = 0 ∧
    c.get_light_or_neighbor u CHUNK_SIZE v { nbrs with pos_y := Option.none } = 0 ∧
    c.get_light_or_neighbor u v (-1) { nbrs with neg_z := Option.none } = 0 ∧
    c.get_light_or_neighbor u v CHUNK_SIZE { nbrs with pos_z := Option.none } = 0 ∧
    get_cached_light (Function.update cache k Option.none) k a b d = 0 ∧
    c.get_light CHUNK_SIZE u v = MAX_LIGHT_LEVEL := by
  have hu := u.isLt
  have hv := v.isLt
  have hCS : ((CHUNK_SIZE : Nat) : Int) = 16 := rfl
  have hCSn : (CHUNK_SIZE : Nat) = 16 := rfl
  have hu0 : ¬((u : Nat) : Int) < 0 := by omega
  have hu16 : ¬(CHUNK_SIZE : Int) ≤ ((u : Nat) : Int) := by
    omega
  have hv0 : ¬((v : Nat) : Int) < 0 := by omega
  have hv16 : ¬(CHUNK_SIZE : Int) ≤ ((v : Nat) : Int) := by
    omega
  have hu16n : ¬(16 ≤ (u : Nat)) := by omega
  have hv16n : ¬(16 ≤ (v : Nat)) := by omega
  refine ⟨?_, ?_, ?_, ?_, ?_, ?_, ?_, ?_⟩
  · have hmain : ¬(0 ≤ (-1 : Int) ∧ (-1 : Int) < (CHUNK_SIZE : Int) ∧
        0 ≤ ((u : Nat) : Int) ∧ ((u : Nat) : Int) < (CHUNK_SIZE : Int) ∧
        0 ≤ ((v : Nat) : Int) ∧ ((v : Nat) : Int) < (CHUNK_SIZE : Int)) := by
      omega
    simp [Chunk.get_light_or_neighbor, hmain, hu0, hu16, hv0, hv16, hu16n, hv16n]
  · have hmain : ¬(0 ≤ ((CHUNK_SIZE : Nat) : Int) ∧
        ((CHUNK_SIZE : Nat) : Int) < (CHUNK_SIZE : Int) ∧
        0 ≤ ((u : Nat) : Int) ∧ ((u : Nat) : Int) < (CHUNK_SIZE : Int) ∧
        0 ≤ ((v : Nat) : Int) ∧ ((v : Nat) : Int) < (CHUNK_SIZE : Int)) := by
      omega
    simp [Chunk.get_light_or_neighbor, hmain, hu0, hu16, hv0, hv16, hu16n, hv16n]
  · have hmain : ¬(0 ≤ ((u : Nat) : Int) ∧ ((u : Nat) : Int) < (CHUNK_SIZE : Int) ∧
        0 ≤ (-1 : Int) ∧ (-1 : Int) < (CHUNK_SIZE : Int) ∧
        0 ≤ ((v : Nat) : Int) ∧ ((v : Nat) : Int) < (CHUNK_SIZE : Int)) := by
      omega
    simp [Chunk.get_light_or_neighbor, hmain, hu0, hu16, hv0, hv16, hu16n, hv16n]
  · have hmain : ¬(0 ≤ ((u : Nat) : Int) ∧ ((u : Nat) : Int) < (CHUNK_SIZE : Int) ∧
        0 ≤ ((CHUNK_SIZE : Nat) : Int) ∧ ((CHUNK_SIZE : Nat) : Int) < (CHUNK_SIZE : Int) ∧
        0 ≤ ((v : Nat) : Int) ∧ ((v : Nat) : Int) < (CHUNK_SIZE : Int)) := by
      omega
    simp [Chunk.get_light_or_neighbor, hmain, hu0, hu16, hv0, hv16, hu16n, hv16n]
  · have hmain : ¬(0 ≤ ((u : Nat) : Int) ∧ ((u : Nat) : Int) < (CHUNK_SIZE : Int) ∧
        0 ≤ ((v : Nat) : Int) ∧ ((v : Nat) : Int) < (CHUNK_SIZE : Int) ∧
        0 ≤ (-1 : Int) ∧ (-1 : Int) < (CHUNK_SIZE : Int)) := by
      omega
    simp [Chunk.get_light_or_neighbor, hmain, hu0, hu16, hv0, hv16, hu16n, hv16n]
  · have hmain : ¬(0 ≤ ((u : Nat) : Int) ∧ ((u : Nat) : Int) < (CHUNK_SIZE : Int) ∧
        0 ≤ ((v : Nat) : Int) ∧ ((v : Nat) : Int) < (CHUNK_SIZE : Int) ∧
        0 ≤ ((CHUNK_SIZE : Nat) : Int) ∧ ((CHUNK_SIZE : Nat) : Int) < (CHUNK_SIZE : Int)) := by
      omega
    simp [Chunk.get_light_or_neighbor, hmain, hu0, hu16, hv0, hv16, hu16n, hv16n]
  · simp [get_cached_light, Function.update_same]
  · unfold Chunk.get_light
    rw [dif_neg (by omega)]

/-! ## Seeding establishes the invariant -/

theorem mem_columnOrder {a d : Nat} (ha : a < CHUNK_SIZE) (hd : d < CHUNK_SIZE) :
    (a, d) ∈ columnOrder := by
  unfold columnOrder
  simp only [List.mem_flatMap, List.mem_map, List.mem_range]
  exact ⟨d, hd, a, ha, rfl⟩

theorem seedColumnStep_fst (x z : Nat) (acc : Chunk × Bool) (y : Nat) :
    ∃ v, (seedColumnStep x z acc y).1 = acc.1.set_light x y z v := by
  unfold seedColumnStep
  split
  · split
    · exact ⟨_, rfl⟩
    · exact ⟨_, rfl⟩
  · exact ⟨_, rfl⟩

theorem okAt_seedColumnStep_self (x z : Nat) (acc : Chunk × Bool) (y : Nat) :
    okAt (seedColumnStep x z acc y).1 x y z := by
  unfold seedColumnStep
  split
  · next hair =>
    have hblock : acc.1.get_block x y z = BlockId.AIR := is_air_iff.mp hair
    split
    · exact okAt_set_light_self _ _ _ _ _ (Or.inl hblock)
    · exact okAt_set_light_self _ _ _ _ _ (Or.inr rfl)
  · exact okAt_set_light_self _ _ _ _ _ (Or.inr rfl)

theorem seedColumn_okAt (c : Chunk) (x z : Nat) (sh : Bool) (y : Nat) :
    okAt (seedColumn c x z sh) x y z := by
  by_cases hy : y < CHUNK_SIZE
  · have hmem : y ∈ (List.range CHUNK_SIZE).reverse := by
      simpa [List.mem_reverse, List.mem_range] using hy
    exact foldl_establish (Q := fun y st => okAt st.1 x y z) _
      (fun st y => okAt_seedColumnStep_self x z st y)
      (fun st y y' hP => by
        by_cases hyy : y' = y
        · subst hyy; exact okAt_seedColumnStep_self x z st y'
        · obtain ⟨v, hv⟩ := seedColumnStep_fst x z st y
          rw [hv]
          exact okAt_set_light_other _ v hP (fun hc => hyy hc.2.1))
      (c, sh) y hmem
  · exact okAt_out _ (by omega)

theorem seedColumn_other (c : Chunk) (x z : Nat) (sh : Bool) {a b d : Nat}
    (hne : ¬(a = x ∧ d = z)) (h : okAt c a b d) :
    okAt (seedColumn c x z sh) a b d := by
  unfold seedColumn
  refine foldl_pres (P := fun st => okAt st.1 a b d) _ ?_ (c, sh) h
  intro st y _ hP
  obtain ⟨v, hv⟩ := seedColumnStep_fst x z st y
  rw [hv]
  exact okAt_set_light_other _ v hP (fun hc => hne ⟨hc.1, hc.2.2⟩)

theorem seed_fold_okAll (c : Chunk) (shfun : Nat → Nat → Bool) :
    okAll (columnOrder.foldl (fun c p => seedColumn c p.1 p.2 (shfun p.1 p.2)) c) := by
  intro a b d
  by_cases hin : a < CHUNK_SIZE ∧ d < CHUNK_SIZE
  · have hmem : (a, d) ∈ columnOrder := mem_columnOrder hin.1 hin.2
    have hQ := foldl_establish
      (Q := fun (p : Nat × Nat) (st : Chunk) => ∀ y, okAt st p.1 y p.2) columnOrder
      (fun st p y => seedColumn_okAt st p.1 p.2 (shfun p.1 p.2) y)
      (fun st p p' hP y => by
        by_cases hc : p'.1 = p.1 ∧ p'.2 = p.2
        · rw [hc.1, hc.2]
          exact seedColumn_okAt st p.1 p.2 (shfun p.1 p.2) y
        · exact seedColumn_other st p.1 p.2 (shfun p.1 p.2) hc (hP y))
      c (a, d) hmem
    exact hQ b
  · exact okAt_out _ (by omega)

theorem okAll_seedPass (c : Chunk) (nbrs : NeighborLightData) :
    okAll (seedPass c nbrs) := by
  unfold seedPass
  exact seed_fold_okAll c (fun x z => column_shadow_start nbrs x z)

theorem okAll_calculate_skylight_with_neighbors (c : Chunk)
    (nbrs : NeighborLightData) : okAll (c.calculate_skylight_with_neighbors nbrs) := by
  unfold Chunk.calculate_skylight_with_neighbors floodLoop
  exact loopAux_pres _ okAll (fun c h => sweepPair_okAll nbrs c h) _ _
    (okAll_seedPass c nbrs)

theorem okAll_propagate_light_from_cache (c : Chunk) (coord : ChunkCoord)
    (cache : LightCache) (h : okAll c) :
    okAll (propagate_light_from_cache c coord cache) := by
  unfold propagate_light_from_cache cacheFloodLoop
  exact loopAux_pres _ okAll (fun c h => cacheSweepPair_okAll coord cache c h) _ _ h

theorem okAll_calculate_skylight_with_cache (c : Chunk) (coord : ChunkCoord)
    (cache : LightCache) : okAll (calculate_skylight_with_cache c coord cache) := by
  unfold calculate_skylight_with_cache
  exact okAll_propagate_light_from_cache _ _ _
    (seed_fold_okAll c (fun x z => is_column_shadowed x z coord cache))

theorem okAll_floodChain (coord : ChunkCoord) (caches : List LightCache)
    (c : Chunk) (h : okAll c) : okAll (floodChain coord c caches) := by
  unfold floodChain
  exact foldl_pres caches
    (fun c k _ hc => okAll_propagate_light_from_cache c coord k hc) c h

/-- C2: after any light-propagation pass — the isolated or neighbor-aware
reset+flood pass `calculate_skylight_with_neighbors` (the isolated pass is
the `NeighborLightData::none` instance), or the cache-based reset+flood pass
`calculate_skylight_with_cache` followed by any chain of flood-only
`propagate_light_from_cache` passes, as `remesh_modified_chunks` runs them —
every stored light value of the chunk is in 0..=15, and every voxel whose
block is non-air reads light 0. -/
theorem C2_light_invariant_after_passes (c : Chunk) (nbrs : NeighborLightData)
    (coord : ChunkCoord) (cache : LightCache) (caches : List LightCache)
    (x y z : Nat) :
    ((c.calculate_skylight_with_neighbors nbrs).get_light x y z ≤ MAX_LIGHT_LEVEL ∧
     ((c.calculate_skylight_with_neighbors nbrs).get_block x y z = BlockId.AIR ∨
      (c.calculate_skylight_with_neighbors nbrs).get_light x y z = 0)) ∧
    ((floodChain coord (calculate_skylight_with_cache c coord cache) caches).get_light x y z
        ≤ MAX_LIGHT_LEVEL ∧
     ((floodChain coord (calculate_skylight_with_cache c coord cache) caches).get_block x y z
        = BlockId.AIR ∨
      (floodChain coord (calculate_skylight_with_cache c coord cache) caches).get_light x y z
        = 0)) :=
  ⟨okAll_calculate_skylight_with_neighbors c nbrs x y z,
   okAll_floodChain coord caches _
     (okAll_calculate_skylight_with_cache c coord cache) x y z⟩

/-- C3: on a chunk whose stored light values are at most 15 (which is every
chunk the program ever builds, since `set_light` clamps), one
forward+backward flood sweep never decreases any stored light value, and the
sweep is idempotent at convergence: if a sweep pair reports no change, a
further sweep pair returns the same chunk and no change again. -/
theorem C3_flood_monotone_idempotent (c : Chunk) (nbrs : NeighborLightData)
    (x y z : Nat) (hb : ∀ a b d, c.get_light a b d ≤ MAX_LIGHT_LEVEL) :
    c.get_light x y z ≤ (sweepPair nbrs c).1.get_light x y z ∧
    ((sweepPair nbrs c).2 = false →
      sweepPair nbrs (sweepPair nbrs c).1 = ((sweepPair nbrs c).1, false)) := by
  constructor
  · exact (sweepPair_mono nbrs c hb).2 x y z
  · intro hconv
    have h1 : (sweepPair nbrs c).1 = c := sweepPair_false nbrs c hconv
    have e1 : sweepPair nbrs c = ((sweepPair nbrs c).1, (sweepPair nbrs c).2) :=
      Prod.mk.eta.symm
    rw [hconv] at e1
    rw [h1] at e1
    exact ((congrArg (sweepPair nbrs) h1).trans e1).trans
      (congrArg (fun t => (t, false)) h1).symm

/-- Witness for C3 at a concrete chunk (a fresh chunk, whose light levels
are all exactly 15). -/
theorem C3_witness :
    (∀ a b d, (Chunk.new ⟨0, 0, 0⟩).get_light a b d ≤ MAX_LIGHT_LEVEL) ∧
    ((Chunk.new ⟨0, 0, 0⟩).get_light 1 2 3 ≤
      (sweepPair NeighborLightData.none (Chunk.new ⟨0, 0, 0⟩)).1.get_light 1 2 3 ∧
     ((sweepPair NeighborLightData.none (Chunk.new ⟨0, 0, 0⟩)).2 = false →
      sweepPair NeighborLightData.none
          (sweepPair NeighborLightData.none (Chunk.new ⟨0, 0, 0⟩)).1 =
        ((sweepPair NeighborLightData.none (Chunk.new ⟨0, 0, 0⟩)).1, false))) :=
  ⟨fun a b d => Chunk.get_light_le_new _ a b d,
   C3_flood_monotone_idempotent (Chunk.new ⟨0, 0, 0⟩) NeighborLightData.none 1 2 3
     (fun a b d => Chunk.get_light_le_new _ a b d)⟩

/-- C7: both flood-fill loops (the neighbor path of
`calculate_skylight_with_neighbors` and the cache path of
`propagate_light_from_cache`) terminate on every input: each executes at
most `2 * CHUNK_SIZE` forward+backward sweep-pairs, its result is exactly
that many sweep-pairs applied in sequence, and unless the cap was exhausted
the loop stopped because a sweep-pair produced no change (so the result is
converged: one more sweep-pair reports no change). -/
theorem C7_flood_loop_terminates (c : Chunk) (nbrs : NeighborLightData)
    (coord : ChunkCoord) (cache : LightCache) :
    (floodLoopCount nbrs (CHUNK_SIZE * 2) c ≤ CHUNK_SIZE * 2 ∧
     floodLoop nbrs (CHUNK_SIZE * 2) c =
       iterSweep (sweepPair nbrs) (floodLoopCount nbrs (CHUNK_SIZE * 2) c) c ∧
     (floodLoopCount nbrs (CHUNK_SIZE * 2) c = CHUNK_SIZE * 2 ∨
      (sweepPair nbrs (floodLoop nbrs (CHUNK_SIZE * 2) c)).2 = false)) ∧
    (cacheFloodLoopCount coord cache (CHUNK_SIZE * 2) c ≤ CHUNK_SIZE * 2 ∧
     cacheFloodLoop coord cache (CHUNK_SIZE * 2) c =
       iterSweep (cacheSweepPair coord cache)
         (cacheFloodLoopCount coord cache (CHUNK_SIZE * 2) c) c ∧
     (cacheFloodLoopCount coord cache (CHUNK_SIZE * 2) c = CHUNK_SIZE * 2 ∨
      (cacheSweepPair coord cache
        (cacheFloodLoop coord cache (CHUNK_SIZE * 2) c)).2 = false)) := by
  unfold floodLoop floodLoopCount cacheFloodLoop cacheFloodLoopCount
  constructor
  · exact ⟨loopCount_le _ _ _, loopAux_iter _ _ _,
      loopAux_stop _ (fun c h => sweepPair_false nbrs c h) _ _⟩
  · exact ⟨loopCount_le _ _ _, loopAux_iter _ _ _,
      loopAux_stop _ (fun c h => cacheSweepPair_false coord cache c h) _ _⟩

/-! ## Block catalog (`blocks/block_type.rs`, `blocks/registry.rs`)

`f32` atlas coordinates are dyadic rationals on which the source's
arithmetic is exact, so they are modelled in `ℚ`.  Tint colors are opaque
`f32` triples, modelled as `ℚ` triples.  The perceptual brightness curve
`light_to_brightness` uses `powf(1.5)`, which has no exact finite
representation; it is the same single function in both mesh builders and no
claim depends on its values, so the builders take it as an explicit
function parameter `light_to_brightness : Nat → Nat → ℚ`
(stored light, current sky level ↦ brightness). -/

/-- `AtlasCoord`: a cell of the 16×16 texture atlas. -/
structure AtlasCoord where
  x : Nat
  y : Nat
deriving DecidableEq

/-- `AtlasCoord::uv_coords` with the 0.5-texel padding `0.001953125 = 1/512`
(exact in `f32` and in `ℚ`). -/
def AtlasCoord.uv_coords (c : AtlasCoord) : ℚ × ℚ × ℚ × ℚ :=
  ((c.x : ℚ) / 16 + 1 / 512, (c.y : ℚ) / 16 + 1 / 512,
   ((c.x : ℚ) + 1) / 16 - 1 / 512, ((c.y : ℚ) + 1) / 16 - 1 / 512)

/-- `BlockFace`. -/
inductive BlockFace where
  | Top
  | Bottom
  | North
  | South
  | East
  | West
deriving DecidableEq

/-- `FaceTints`: optional per-face tint colors. -/
structure FaceTints where
  top : Option (ℚ × ℚ × ℚ)
  bottom : Option (ℚ × ℚ × ℚ)
  north : Option (ℚ × ℚ × ℚ)
  south : Option (ℚ × ℚ × ℚ)
  east : Option (ℚ × ℚ × ℚ)
  west : Option (ℚ × ℚ × ℚ)
deriving DecidableEq

/-- `BlockTextures`: per-face atlas cells plus the optional side overlay. -/
structure BlockTextures where
  top : AtlasCoord
  bottom : AtlasCoord
  north : AtlasCoord
  south : AtlasCoord
  east : AtlasCoord
  west : AtlasCoord
  side_overlay : Option AtlasCoord
deriving DecidableEq

/-- `BlockTextures::get_face`. -/
def BlockTextures.get_face (t : BlockTextures) : BlockFace → AtlasCoord
  | BlockFace.Top => t.top
  | BlockFace.Bottom => t.bottom
  | BlockFace.North => t.north
  | BlockFace.South => t.south
  | BlockFace.East => t.east
  | BlockFace.West => t.west

/-- `BlockProperties` (identifier strings omitted; they are not read by the
verified components). -/
structure BlockProperties where
  is_solid : Bool
  is_transparent : Bool
  light_emission : Nat
  textures : BlockTextures
  tint_colors : FaceTints
deriving DecidableEq

/-- `BlockType`. -/
structure BlockType where
  properties : BlockProperties
deriving DecidableEq

/-- The Block Catalog read contract, `BlockRegistry::get_block`: a partial
map from numeric ids to block types. -/
abbrev BlockRegistry := BlockId → Option BlockType

/-! ## Mesh building (`world/mesh_gen.rs`) -/

/-- `NeighborChunks` (`mesh_gen.rs` 9-29). -/
structure NeighborChunks where
  neg_x : Option Chunk
  pos_x : Option Chunk
  neg_y : Option Chunk
  pos_y : Option Chunk
  neg_z : Option Chunk
  pos_z : Option Chunk

/-- `NeighborChunks::none`. -/
def NeighborChunks.none : NeighborChunks :=
  ⟨Option.none, Option.none, Option.none, Option.none, Option.none, Option.none⟩

/-- `should_render_face_with_neighbors` (`mesh_gen.rs` 32-89): a face is
visible when the stepped-to voxel is air, resolved through the neighbor
chunk across a boundary; with no loaded neighbor the face is visible. -/
def should_render_face_with_neighbors (chunk : Chunk) (neighbors : NeighborChunks)
    (x y z : Nat) (dx dy dz : Int) : Bool :=
  let nx : Int := (x : Int) + dx
  let ny : Int := (y : Int) + dy
  let nz : Int := (z : Int) + dz
  if 0 ≤ nx ∧ nx < (CHUNK_SIZE : Int) ∧ 0 ≤ ny ∧ ny < (CHUNK_SIZE : Int) ∧
      0 ≤ nz ∧ nz < (CHUNK_SIZE : Int) then
    is_air (chunk.get_block nx.toNat ny.toNat nz.toNat)
  else if nx < 0 then
    match neighbors.neg_x with
    | some n => is_air (n.get_block (CHUNK_SIZE - 1) y z)
    | none => true
  else if (CHUNK_SIZE : Int) ≤ nx then
    match neighbors.pos_x with
    | some n => is_air (n.get_block 0 y z)
    | none => true
  else if ny < 0 then
    match neighbors.neg_y with
    | some n => is_air (n.get_block x (CHUNK_SIZE - 1) z)
    | none => true
  else if (CHUNK_SIZE : Int) ≤ ny then
    match neighbors.pos_y with
    | some n => is_air (n.get_block x 0 z)
    | none => true
  else if nz < 0 then
    match neighbors.neg_z with
    | some n => is_air (n.get_block x y (CHUNK_SIZE - 1))
    | none => true
  else if (CHUNK_SIZE : Int) ≤ nz then
    match neighbors.pos_z with
    | some n => is_air (n.get_block x y 0)
    | none => true
  else true

/-- `get_light_at` (`mesh_gen.rs` 111-189): light at a possibly-out-of-chunk
position for face brightness; a missing neighbor above or sideways reads as
full sky light, a missing neighbor below as 0. -/
def get_light_at (chunk : Chunk) (neighbors : NeighborChunks)
    (x y z : Int) : Nat :=
  if 0 ≤ x ∧ x < (CHUNK_SIZE : Int) ∧ 0 ≤ y ∧ y < (CHUNK_SIZE : Int) ∧
      0 ≤ z ∧ z < (CHUNK_SIZE : Int) then
    chunk.get_light x.toNat y.toNat z.toNat
  else if (CHUNK_SIZE : Int) ≤ y then
    match neighbors.pos_y with
    | some n =>
        if 0 ≤ x ∧ x < (CHUNK_SIZE : Int) ∧ 0 ≤ z ∧ z < (CHUNK_SIZE : Int) then
          n.get_light x.toNat 0 z.toNat
        else MAX_LIGHT_LEVEL
    | none => MAX_LIGHT_LEVEL
  else if y < 0 then
    match neighbors.neg_y with
    | some n =>
        if 0 ≤ x ∧ x < (CHUNK_SIZE : Int) ∧ 0 ≤ z ∧ z < (CHUNK_SIZE : Int) then
          n.get_light x.toNat (CHUNK_SIZE - 1) z.toNat
        else 0
    | none => 0
  else if x < 0 then
    match neighbors.neg_x with
    | some n =>
        if 0 ≤ y ∧ y < (CHUNK_SIZE : Int) ∧ 0 ≤ z ∧ z < (CHUNK_SIZE : Int) then
          n.get_light (CHUNK_SIZE - 1) y.toNat z.toNat
        else MAX_LIGHT_LEVEL
    | none => MAX_LIGHT_LEVEL
  else if (CHUNK_SIZE : Int) ≤ x then
    match neighbors.pos_x with
    | some n =>
        if 0 ≤ y ∧ y < (CHUNK_SIZE : Int) ∧ 0 ≤ z ∧ z < (CHUNK_SIZE : Int) then
          n.get_light 0 y.toNat z.toNat
        else MAX_LIGHT_LEVEL
    | none => MAX_LIGHT_LEVEL
  else if z < 0 then
    match neighbors.neg_z with
    | some n =>
        if 0 ≤ x ∧ x < (CHUNK_SIZE : Int) ∧ 0 ≤ y ∧ y < (CHUNK_SIZE : Int) then
          n.get_light x.toNat y.toNat (CHUNK_SIZE - 1)
        else MAX_LIGHT_LEVEL
    | none => MAX_LIGHT_LEVEL
  else if (CHUNK_SIZE : Int) ≤ z then
    match neighbors.pos_z with
    | some n =>
        if 0 ≤ x ∧ x < (CHUNK_SIZE : Int) ∧ 0 ≤ y ∧ y < (CHUNK_SIZE : Int) then
          n.get_light x.toNat y.toNat 0
        else MAX_LIGHT_LEVEL
    | none => MAX_LIGHT_LEVEL
  else MAX_LIGHT_LEVEL

/-- Directional face shading constants (`mesh_gen.rs` 97-102), as the exact
values of the `f32` literals. -/
def BRIGHTNESS_UP : ℚ := 1

def BRIGHTNESS_DOWN : ℚ := 1 / 2

def BRIGHTNESS_NORTH : ℚ := 13421773 / 16777216

def BRIGHTNESS_SOUTH : ℚ := 13421773 / 16777216

def BRIGHTNESS_EAST : ℚ := 10066330 / 16777216

def BRIGHTNESS_WEST : ℚ := 10066330 / 16777216

/-- The `[0.0, 0.0]` "no overlay" marker. -/
def no_overlay : ℚ × ℚ := (0, 0)

/-- The collected vertex attributes and indices of a built mesh
(bevy's `Mesh` with POSITION/NORMAL/UV_0/UV_1/COLOR and a `u32`
triangle-list index buffer). -/
structure MeshData where
  positions : List (ℚ × ℚ × ℚ)
  normals : List (ℚ × ℚ × ℚ)
  uvs : List (ℚ × ℚ)
  uv2s : List (ℚ × ℚ)
  colors : List (ℚ × ℚ × ℚ × ℚ)
  indices : List Nat
deriving DecidableEq

/-- The common quad-push pattern of every face block: four vertices with a
shared normal and color, and the winding
`[base, base+3, base+2, base+2, base+1, base]`. -/
def pushQuad (st : MeshData) (ps : List (ℚ × ℚ × ℚ)) (n : ℚ × ℚ × ℚ)
    (uvq : List (ℚ × ℚ)) (uv2q : List (ℚ × ℚ)) (color : ℚ × ℚ × ℚ × ℚ) :
    MeshData :=
  let base := st.positions.length
  { positions := st.positions ++ ps
    normals := st.normals ++ [n, n, n, n]
    uvs := st.uvs ++ uvq
    uv2s := st.uv2s ++ uv2q
    colors := st.colors ++ [color, color, color, color]
    indices := st.indices ++ [base, base + 3, base + 2, base + 2, base + 1, base] }

/-- Per-face UV rectangle: the block's atlas cell for the face, or the
`(0,0)` cell default when the id is not in the catalog. -/
def faceUV (block_type : Option BlockType) (f : BlockFace) : ℚ × ℚ × ℚ × ℚ :=
  match block_type with
  | some bt => (bt.properties.textures.get_face f).uv_coords
  | none => (0, 0, 1 / 16, 1 / 16)

/-- The top (+Y) face block (`mesh_gen.rs` 279-317 and its verbatim copy at
737-755): no overlay, top tint, `BRIGHTNESS_UP` shading, brightness from
the voxel above. -/
def emitTopFace (block_type : Option BlockType) (sky : Nat)
    (ltb : Nat → Nat → ℚ) (render : Int → Int → Int → Bool)
    (light : Int → Int → Int → Nat) (x y z : Nat) (st : MeshData) : MeshData :=
  if render 0 1 0 then
    let fx : ℚ := x
    let fy : ℚ := y
    let fz : ℚ := z
    let (u_min, v_min, u_max, v_max) := faceUV block_type BlockFace.Top
    let tint := ((block_type.map fun b => b.properties.tint_colors).bind
      fun t => t.top).getD (1, 1, 1)
    let brightness :=
      BRIGHTNESS_UP * ltb (light (x : Int) ((y : Int) + 1) (z : Int)) sky
    pushQuad st
      [(fx, fy + 1, fz), (fx + 1, fy + 1, fz), (fx + 1, fy + 1, fz + 1), (fx, fy + 1, fz + 1)]
      (0, 1, 0)
      [(u_min, v_min), (u_max, v_min), (u_max, v_max), (u_min, v_max)]
      [no_overlay, no_overlay, no_overlay, no_overlay]
      (tint.1, tint.2.1, tint.2.2, brightness)
  else st

/-- The bottom (-Y) face block (`mesh_gen.rs` 320-353, 758-784). -/
def emitBottomFace (block_type : Option BlockType) (sky : Nat)
    (ltb : Nat → Nat → ℚ) (render : Int → Int → Int → Bool)
    (light : Int → Int → Int → Nat) (x y z : Nat) (st : MeshData) : MeshData :=
  if render 0 (-1) 0 then
    let fx : ℚ := x
    let fy : ℚ := y
    let fz : ℚ := z
    let (u_min, v_min, u_max, v_max) := faceUV block_type BlockFace.Bottom
    let tint := ((block_type.map fun b => b.properties.tint_colors).bind
      fun t => t.bottom).getD (1, 1, 1)
    let brightness :=
      BRIGHTNESS_DOWN * ltb (light (x : Int) ((y : Int) - 1) (z : Int)) sky
    pushQuad st
      [(fx, fy, fz), (fx, fy, fz + 1), (fx + 1, fy, fz + 1), (fx + 1, fy, fz)]
      (0, -1, 0)
      [(u_min, v_min), (u_max, v_min), (u_max, v_max), (u_min, v_max)]
      [no_overlay, no_overlay, no_overlay, no_overlay]
      (tint.1, tint.2.1, tint.2.2, brightness)
  else st

/-- The south (+Z) face block (`mesh_gen.rs` 356-409, 787-823): overlay UVs
and the top tint when a side overlay exists, else the south tint. -/
def emitSouthFace (block_type : Option BlockType) (sky : Nat)
    (ltb : Nat → Nat → ℚ) (render : Int → Int → Int → Bool)
    (light : Int → Int → Int → Nat) (x y z : Nat) (st : MeshData) : MeshData :=
  if render 0 0 1 then
    let fx : ℚ := x
    let fy : ℚ := y
    let fz : ℚ := z
    let (u_min, v_min, u_max, v_max) := faceUV block_type BlockFace.South
    let side_overlay := ((block_type.map fun b => b.properties.textures).bind
      fun t => t.side_overlay)
    let brightness :=
      BRIGHTNESS_SOUTH * ltb (light (x : Int) (y : Int) ((z : Int) + 1)) sky
    let ps := [(fx, fy, fz + 1), (fx, fy + 1, fz + 1), (fx + 1, fy + 1, fz + 1), (fx + 1, fy, fz + 1)]
    let uvq := [(u_min, v_max), (u_min, v_min), (u_max, v_min), (u_max, v_max)]
    match side_overlay with
    | some overlay =>
      let (ou_min, ov_min, ou_max, ov_max) := overlay.uv_coords
      let tint := ((block_type.map fun b => b.properties.tint_colors).bind
        fun t => t.top).getD (1, 1, 1)
      pushQuad st ps (0, 0, 1) uvq
        [(ou_min, ov_max), (ou_min, ov_min), (ou_max, ov_min), (ou_max, ov_max)]
        (tint.1, tint.2.1, tint.2.2, brightness)
    | none =>
      let tint := ((block_type.map fun b => b.properties.tint_colors).bind
        fun t => t.south).getD (1, 1, 1)
      pushQuad st ps (0, 0, 1) uvq
        [no_overlay, no_overlay, no_overlay, no_overlay]
        (tint.1, tint.2.1, tint.2.2, brightness)
  else st

/-- The north (-Z) face block (`mesh_gen.rs` 412-463, 826-862). -/
def emitNorthFace (block_type : Option BlockType) (sky : Nat)
    (ltb : Nat → Nat → ℚ) (render : Int → Int → Int → Bool)
    (light : Int → Int → Int → Nat) (x y z : Nat) (st : MeshData) : MeshData :=
  if render 0 0 (-1) then
    let fx : ℚ := x
    let fy : ℚ := y
    let fz : ℚ := z
    let (u_min, v_min, u_max, v_max) := faceUV block_type BlockFace.North
    let side_overlay := ((block_type.map fun b => b.properties.textures).bind
      fun t => t.side_overlay)
    let brightness :=
      BRIGHTNESS_NORTH * ltb (light (x : Int) (y : Int) ((z : Int) - 1)) sky
    let ps := [(fx, fy, fz), (fx + 1, fy, fz), (fx + 1, fy + 1, fz), (fx, fy + 1, fz)]
    let uvq := [(u_min, v_max), (u_max, v_max), (u_max, v_min), (u_min, v_min)]
    match side_overlay with
    | some overlay =>
      let (ou_min, ov_min, ou_max, ov_max) := overlay.uv_coords
      let tint := ((block_type.map fun b => b.properties.tint_colors).bind
        fun t => t.top).getD (1, 1, 1)
      pushQuad st ps (0, 0, -1) uvq
        [(ou_min, ov_max), (ou_max, ov_max), (ou_max, ov_min), (ou_min, ov_min)]
        (tint.1, tint.2.1, tint.2.2, brightness)
    | none =>
      let tint := ((block_type.map fun b => b.properties.tint_colors).bind
        fun t => t.north).getD (1, 1, 1)
      pushQuad st ps (0, 0, -1) uvq
        [no_overlay, no_overlay, no_overlay, no_overlay]
        (tint.1, tint.2.1, tint.2.2, brightness)
  else st

/-- The east (+X) face block (`mesh_gen.rs` 466-517, 865-901). -/
def emitEastFace (block_type : Option BlockType) (sky : Nat)
    (ltb : Nat → Nat → ℚ) (render : Int → Int → Int → Bool)
    (light : Int → Int → Int → Nat) (x y z : Nat) (st : MeshData) : MeshData :=
  if render 1 0 0 then
    let fx : ℚ := x
    let fy : ℚ := y
    let fz : ℚ := z
    let (u_min, v_min, u_max, v_max) := faceUV block_type BlockFace.East
    let side_overlay := ((block_type.map fun b => b.properties.textures).bind
      fun t => t.side_overlay)
    let brightness :=
      BRIGHTNESS_EAST * ltb (light ((x : Int) + 1) (y : Int) (z : Int)) sky
    let ps := [(fx + 1, fy, fz), (fx + 1, fy, fz + 1), (fx + 1, fy + 1, fz + 1), (fx + 1, fy + 1, fz)]
    let uvq := [(u_min, v_max), (u_max, v_max), (u_max, v_min), (u_min, v_min)]
    match side_overlay with
    | some overlay =>
      let (ou_min, ov_min, ou_max, ov_max) := overlay.uv_coords
      let tint := ((block_type.map fun b => b.properties.tint_colors).bind
        fun t => t.top).getD (1, 1, 1)
      pushQuad st ps (1, 0, 0) uvq
        [(ou_min, ov_max), (ou_max, ov_max), (ou_max, ov_min), (ou_min, ov_min)]
        (tint.1, tint.2.1, tint.2.2, brightness)
    | none =>
      let tint := ((block_type.map fun b => b.properties.tint_colors).bind
        fun t => t.east).getD (1, 1, 1)
      pushQuad st ps (1, 0, 0) uvq
        [no_overlay, no_overlay, no_overlay, no_overlay]
        (tint.1, tint.2.1, tint.2.2, brightness)
  else st

/-- The west (-X) face block (`mesh_gen.rs` 520-571, 904-940). -/
def emitWestFace (block_type : Option BlockType) (sky : Nat)
    (ltb : Nat → Nat → ℚ) (render : Int → Int → Int → Bool)
    (light : Int → Int → Int → Nat) (x y z : Nat) (st : MeshData) : MeshData :=
  if render (-1) 0 0 then
    let fx : ℚ := x
    let fy : ℚ := y
    let fz : ℚ := z
    let (u_min, v_min, u_max, v_max) := faceUV block_type BlockFace.West
    let side_overlay := ((block_type.map fun b => b.properties.textures).bind
      fun t => t.side_overlay)
    let brightness :=
      BRIGHTNESS_WEST * ltb (light ((x : Int) - 1) (y : Int) (z : Int)) sky
    let ps := [(fx, fy, fz), (fx, fy + 1, fz), (fx, fy + 1, fz + 1), (fx, fy, fz + 1)]
    let uvq := [(u_min, v_max), (u_min, v_min), (u_max, v_min), (u_max, v_max)]
    match side_overlay with
    | some overlay =>
      let (ou_min, ov_min, ou_max, ov_max) := overlay.uv_coords
      let tint := ((block_type.map fun b => b.properties.tint_colors).bind
        fun t => t.top).getD (1, 1, 1)
      pushQuad st ps (-1, 0, 0) uvq
        [(ou_min, ov_max), (ou_min, ov_min), (ou_max, ov_min), (ou_max, ov_max)]
        (tint.1, tint.2.1, tint.2.2, brightness)
    | none =>
      let tint := ((block_type.map fun b => b.properties.tint_colors).bind
        fun t => t.west).getD (1, 1, 1)
      pushQuad st ps (-1, 0, 0) uvq
        [no_overlay, no_overlay, no_overlay, no_overlay]
        (tint.1, tint.2.1, tint.2.2, brightness)
  else st

/-- The per-voxel face-emission block, shared verbatim between
`create_chunk_mesh_with_sky_light` (`mesh_gen.rs` 249-574) and
`create_chunk_mesh_with_cached_neighbors` (710-943); only the `render` and
`light` lookups differ between the two, so they are parameters here.  Face
order: top, bottom, south (+Z), north (-Z), east (+X), west (-X). -/
def emitVoxelFaces (block_registry : BlockRegistry) (sky : Nat)
    (ltb : Nat → Nat → ℚ) (render : Int → Int → Int → Bool)
    (light : Int → Int → Int → Nat) (x y z : Nat) (block_id : BlockId)
    (st : MeshData) : MeshData :=
  let block_type := block_registry block_id
  let st := emitTopFace block_type sky ltb render light x y z st
  let st := emitBottomFace block_type sky ltb render light x y z st
  let st := emitSouthFace block_type sky ltb render light x y z st
  let st := emitNorthFace block_type sky ltb render light x y z st
  let st := emitEastFace block_type sky ltb render light x y z st
  emitWestFace block_type sky ltb render light x y z st

/-- `create_chunk_mesh_with_sky_light` (`mesh_gen.rs` 238-593): walk the
chunk (y, z, x ascending), skip air voxels, emit the visible faces, and
return no mesh when no face was emitted. -/
def create_chunk_mesh_with_sky_light (chunk : Chunk)
    (block_registry : BlockRegistry) (neighbors : NeighborChunks)
    (sky_light_level : Nat) (ltb : Nat → Nat → ℚ) : Option MeshData :=
  let st := forwardOrder.foldl
    (fun st p =>
      let block_id := chunk.get_block p.1 p.2.1 p.2.2
      if is_air block_id then st
      else
        emitVoxelFaces block_registry sky_light_level ltb
          (fun dx dy dz =>
            should_render_face_with_neighbors chunk neighbors p.1 p.2.1 p.2.2 dx dy dz)
          (fun ax ay az => get_light_at chunk neighbors ax ay az)
          p.1 p.2.1 p.2.2 block_id st)
    ⟨[], [], [], [], [], []⟩
  if st.positions.isEmpty then Option.none else some st

/-- `create_chunk_mesh_with_neighbors` (`mesh_gen.rs` 213-216). -/
def create_chunk_mesh_with_neighbors (chunk : Chunk)
    (block_registry : BlockRegistry) (neighbors : NeighborChunks)
    (ltb : Nat → Nat → ℚ) : Option MeshData :=
  create_chunk_mesh_with_sky_light chunk block_registry neighbors MAX_LIGHT_LEVEL ltb

/-- `create_chunk_mesh` (`mesh_gen.rs` 91-93). -/
def create_chunk_mesh (chunk : Chunk) (block_registry : BlockRegistry)
    (ltb : Nat → Nat → ℚ) : Option MeshData :=
  create_chunk_mesh_with_neighbors chunk block_registry NeighborChunks.none ltb

/-- The `should_render_face` closure of
`create_chunk_mesh_with_cached_neighbors` (`mesh_gen.rs` 621-656):
cross-boundary air-ness through the block accessor. -/
def cached_should_render_face (chunk : Chunk)
    (get_neighbor_block : Int → Int → Int → Nat → Nat → Nat → BlockId)
    (x y z : Nat) (dx dy dz : Int) : Bool :=
  let nx : Int := (x : Int) + dx
  let ny : Int := (y : Int) + dy
  let nz : Int := (z : Int) + dz
  if 0 ≤ nx ∧ nx < (CHUNK_SIZE : Int) ∧ 0 ≤ ny ∧ ny < (CHUNK_SIZE : Int) ∧
      0 ≤ nz ∧ nz < (CHUNK_SIZE : Int) then
    is_air (chunk.get_block nx.toNat ny.toNat nz.toNat)
  else if nx < 0 then
    is_air (get_neighbor_block (-1) 0 0 (CHUNK_SIZE - 1) y z)
  else if (CHUNK_SIZE : Int) ≤ nx then
    is_air (get_neighbor_block 1 0 0 0 y z)
  else if ny < 0 then
    is_air (get_neighbor_block 0 (-1) 0 x (CHUNK_SIZE - 1) z)
  else if (CHUNK_SIZE : Int) ≤ ny then
    is_air (get_neighbor_block 0 1 0 x 0 z)
  else if nz < 0 then
    is_air (get_neighbor_block 0 0 (-1) x y (CHUNK_SIZE - 1))
  else if (CHUNK_SIZE : Int) ≤ nz then
    is_air (get_neighbor_block 0 0 1 x y 0)
  else true

/-- `i.clamp(0, CHUNK_SIZE - 1) as usize`. -/
def clampCoord (i : Int) : Nat := (min (max i 0) ((CHUNK_SIZE : Int) - 1)).toNat

/-- The `get_light` closure of `create_chunk_mesh_with_cached_neighbors`
(`mesh_gen.rs` 659-708): every out-of-chunk lookup goes through the light
accessor (missing data is the accessor's concern). -/
def cached_get_light (chunk : Chunk)
    (get_neighbor_light : Int → Int → Int → Nat → Nat → Nat → Nat)
    (x y z : Int) : Nat :=
  if 0 ≤ x ∧ x < (CHUNK_SIZE : Int) ∧ 0 ≤ y ∧ y < (CHUNK_SIZE : Int) ∧
      0 ≤ z ∧ z < (CHUNK_SIZE : Int) then
    chunk.get_light x.toNat y.toNat z.toNat
  else if (CHUNK_SIZE : Int) ≤ y then
    get_neighbor_light 0 1 0 (clampCoord x) 0 (clampCoord z)
  else if y < 0 then
    get_neighbor_light 0 (-1) 0 (clampCoord x) (CHUNK_SIZE - 1) (clampCoord z)
  else if x < 0 then
    get_neighbor_light (-1) 0 0 (CHUNK_SIZE - 1) y.toNat (clampCoord z)
  else if (CHUNK_SIZE : Int) ≤ x then
    get_neighbor_light 1 0 0 0 y.toNat (clampCoord z)
  else if z < 0 then
    get_neighbor_light 0 0 (-1) x.toNat y.toNat (CHUNK_SIZE - 1)
  else if (CHUNK_SIZE : Int) ≤ z then
    get_neighbor_light 0 0 1 x.toNat y.toNat 0
  else 0

/-- `create_chunk_mesh_with_cached_neighbors` (`mesh_gen.rs` 597-958): the
same walk and face emission, with the closure-based lookups. -/
def create_chunk_mesh_with_cached_neighbors (chunk : Chunk)
    (block_registry : BlockRegistry) (sky_light_level : Nat)
    (get_neighbor_block : Int → Int → Int → Nat → Nat → Nat → BlockId)
    (get_neighbor_light : Int → Int → Int → Nat → Nat → Nat → Nat)
    (ltb : Nat → Nat → ℚ) : Option MeshData :=
  let st := forwardOrder.foldl
    (fun st p =>
      let block_id := chunk.get_block p.1 p.2.1 p.2.2
      if is_air block_id then st
      else
        emitVoxelFaces block_registry sky_light_level ltb
          (fun dx dy dz =>
            cached_should_render_face chunk get_neighbor_block p.1 p.2.1 p.2.2 dx dy dz)
          (fun ax ay az => cached_get_light chunk get_neighbor_light ax ay az)
          p.1 p.2.1 p.2.2 block_id st)
    ⟨[], [], [], [], [], []⟩
  if st.positions.isEmpty then Option.none else some st

/-- `create_chunk_mesh_with_cache` (`block_interaction.rs` 332-358): the
accessors read the snapshot cache; an absent neighbor yields air blocks and
light 0. -/
def create_chunk_mesh_with_cache (chunk : Chunk)
    (block_registry : BlockRegistry) (chunk_coord : ChunkCoord)
    (cache : LightCache) (sky_light_level : Nat) (ltb : Nat → Nat → ℚ) :
    Option MeshData :=
  create_chunk_mesh_with_cached_neighbors chunk block_registry sky_light_level
    (fun dx dy dz x y z =>
      ((cache ⟨chunk_coord.x + dx, chunk_coord.y + dy, chunk_coord.z + dz⟩).map
        fun c => c.get_block x y z).getD BlockId.AIR)
    (fun dx dy dz x y z =>
      ((cache ⟨chunk_coord.x + dx, chunk_coord.y + dy, chunk_coord.z + dz⟩).map
        fun c => c.get_light x y z).getD 0)
    ltb

/-! ## Mesh-builder lemmas -/

theorem foldl_id {α β : Type _} {f : β → α → β} (l : List α)
    (h : ∀ s a, a ∈ l → f s a = s) : ∀ s, l.foldl f s = s := by
  induction l with
  | nil => intro s; rfl
  | cons hd tl ih =>
    intro s
    rw [List.foldl_cons, h s hd (List.mem_cons_self hd tl)]
    exact ih (fun s a ha => h s a (List.mem_cons_of_mem hd ha)) s

theorem foldl_congr_mem {α β : Type _} {f g : β → α → β} (l : List α)
    (h : ∀ s a, a ∈ l → f s a = g s a) : ∀ s, l.foldl f s = l.foldl g s := by
  induction l with
  | nil => intro s; rfl
  | cons hd tl ih =>
    intro s
    rw [List.foldl_cons, List.foldl_cons, h s hd (List.mem_cons_self hd tl)]
    exact ih (fun s a ha => h s a (List.mem_cons_of_mem hd ha)) _

theorem foldl_single_active {α β : Type _} (f : β → α → β) (l : List α) (p₀ : α)
    (hmem : p₀ ∈ l) (hnd : l.Nodup)
    (hid : ∀ s p, p ∈ l → p ≠ p₀ → f s p = s) :
    ∀ s, l.foldl f s = f s p₀ := by
  intro s
  obtain ⟨l1, l2, rfl⟩ := List.append_of_mem hmem
  rw [List.foldl_append, List.foldl_cons]
  obtain ⟨hnd1, hnd2, hdisj⟩ := List.nodup_append.mp hnd
  have hp1 : p₀ ∉ l1 := fun hin => hdisj hin (List.mem_cons_self _ _)
  have hp2 : p₀ ∉ l2 := (List.nodup_cons.mp hnd2).1
  rw [foldl_id l1 (fun s p hp => hid s p (List.mem_append_left _ hp)
    (fun he => hp1 (he ▸ hp))) s]
  exact foldl_id l2 (fun s p hp =>
    hid s p (List.mem_append_right _ (List.mem_cons_of_mem _ hp))
      (fun he => hp2 (he ▸ hp))) _

theorem mem_forwardOrder_iff {p : Nat × Nat × Nat} :
    p ∈ forwardOrder ↔ p.1 < CHUNK_SIZE ∧ p.2.1 < CHUNK_SIZE ∧ p.2.2 < CHUNK_SIZE := by
  obtain ⟨x, y, z⟩ := p
  unfold forwardOrder
  simp only [List.mem_flatMap, List.mem_map, List.mem_range]
  constructor
  · rintro ⟨y', hy', z', hz', x', hx', heq⟩
    obtain ⟨rfl, rfl, rfl⟩ := Prod.mk.injEq .. ▸ heq
    injection heq with h1 h2
    injection h2 with h3 h4
    exact ⟨by omega, by omega, by omega⟩
  · rintro ⟨hx, hy, hz⟩
    exact ⟨y, hy, z, hz, x, hx, rfl⟩

theorem forwardOrder_nodup : forwardOrder.Nodup := by
  unfold forwardOrder
  rw [List.nodup_flatMap]
  constructor
  · intro y _
    rw [List.nodup_flatMap]
    constructor
    · intro z _
      exact (List.nodup_range _).map
        (fun a b h => by injection h)
    · refine List.Pairwise.imp ?_ (List.nodup_range CHUNK_SIZE)
      intro z1 z2 hne q hq1 hq2
      simp only [Function.onFun, List.mem_map, List.mem_range] at hq1 hq2
      obtain ⟨x1, _, rfl⟩ := hq1
      obtain ⟨x2, _, heq⟩ := hq2
      injection heq with h1 h2
      injection h2 with h3 h4
      exact hne h4.symm
  · refine List.Pairwise.imp ?_ (List.nodup_range CHUNK_SIZE)
    intro y1 y2 hne q hq1 hq2
    simp only [Function.onFun, List.mem_flatMap, List.mem_map, List.mem_range] at hq1 hq2
    obtain ⟨z1, _, x1, _, rfl⟩ := hq1
    obtain ⟨z2, _, x2, _, heq⟩ := hq2
    injection heq with h1 h2
    injection h2 with h3 h4
    exact hne h3.symm

/-- Number of the six face guards that pass for one voxel's `render`. -/
def faceFlagCount (render : Int → Int → Int → Bool) : Nat :=
  (if render 0 1 0 then 1 else 0) + (if render 0 (-1) 0 then 1 else 0) +
  (if render 0 0 1 then 1 else 0) + (if render 0 0 (-1) then 1 else 0) +
  (if render 1 0 0 then 1 else 0) + (if render (-1) 0 0 then 1 else 0)

/-- Faces the live builder emits for one voxel: none for air, otherwise the
passing guards. -/
def liveVoxelFaceCount (chunk : Chunk) (neighbors : NeighborChunks)
    (p : Nat × Nat × Nat) : Nat :=
  if is_air (chunk.get_block p.1 p.2.1 p.2.2) then 0
  else faceFlagCount
    (fun dx dy dz => should_render_face_with_neighbors chunk neighbors p.1 p.2.1 p.2.2 dx dy dz)

/-- Total number of faces the live builder emits. -/
def liveFaceCount (chunk : Chunk) (neighbors : NeighborChunks) : Nat :=
  (forwardOrder.map (liveVoxelFaceCount chunk neighbors)).sum

theorem pushQuad_positions_length (st : MeshData) (ps : List (ℚ × ℚ × ℚ))
    (n : ℚ × ℚ × ℚ) (uvq uv2q : List (ℚ × ℚ)) (color : ℚ × ℚ × ℚ × ℚ) :
    (pushQuad st ps n uvq uv2q color).positions.length =
      st.positions.length + ps.length := by
  unfold pushQuad
  exact List.length_append _ _

theorem emitTopFace_len (bt : Option BlockType) (sky : Nat) (ltb : Nat → Nat → ℚ)
    (render : Int → Int → Int → Bool) (light : Int → Int → Int → Nat)
    (x y z : Nat) (st : MeshData) :
    (emitTopFace bt sky ltb render light x y z st).positions.length =
      st.positions.length + (if render 0 1 0 then 4 else 0) := by
  unfold emitTopFace
  split
  · rw [pushQuad_positions_length]; rfl
  · rfl

theorem emitBottomFace_len (bt : Option BlockType) (sky : Nat) (ltb : Nat → Nat → ℚ)
    (render : Int → Int → Int → Bool) (light : Int → Int → Int → Nat)
    (x y z : Nat) (st : MeshData) :
    (emitBottomFace bt sky ltb render light x y z st).positions.length =
      st.positions.length + (if render 0 (-1) 0 then 4 else 0) := by
  unfold emitBottomFace
  split
  · rw [pushQuad_positions_length]; rfl
  · rfl

theorem emitSouthFace_len (bt : Option BlockType) (sky : Nat) (ltb : Nat → Nat → ℚ)
    (render : Int → Int → Int → Bool) (light : Int → Int → Int → Nat)
    (x y z : Nat) (st : MeshData) :
    (emitSouthFace bt sky ltb render light x y z st).positions.length =
      st.positions.length + (if render 0 0 1 then 4 else 0) := by
  unfold emitSouthFace
  split
  · split
    dsimp only
    repeat' split
    all_goals (try dsimp only)
    all_goals (rw [pushQuad_positions_length]; rfl)
  · rfl

theorem emitNorthFace_len (bt : Option BlockType) (sky : Nat) (ltb : Nat → Nat → ℚ)
    (render : Int → Int → Int → Bool) (light : Int → Int → Int → Nat)
    (x y z : Nat) (st : MeshData) :
    (emitNorthFace bt sky ltb render light x y z st).positions.length =
      st.positions.length + (if render 0 0 (-1) then 4 else 0) := by
  unfold emitNorthFace
  split
  · split
    dsimp only
    repeat' split
    all_goals (try dsimp only)
    all_goals (rw [pushQuad_positions_length]; rfl)
  · rfl

theorem emitEastFace_len (bt : Option BlockType) (sky : Nat) (ltb : Nat → Nat → ℚ)
    (render : Int → Int → Int → Bool) (light : Int → Int → Int → Nat)
    (x y z : Nat) (st : MeshData) :
    (emitEastFace bt sky ltb render light x y z st).positions.length =
      st.positions.length + (if render 1 0 0 then 4 else 0) := by
  unfold emitEastFace
  split
  · split
    dsimp only
    repeat' split
    all_goals (try dsimp only)
    all_goals (rw [pushQuad_positions_length]; rfl)
  · rfl

theorem emitWestFace_len (bt : Option BlockType) (sky : Nat) (ltb : Nat → Nat → ℚ)
    (render : Int → Int → Int → Bool) (light : Int → Int → Int → Nat)
    (x y z : Nat) (st : MeshData) :
    (emitWestFace bt sky ltb render light x y z st).positions.length =
      st.positions.length + (if render (-1) 0 0 then 4 else 0) := by
  unfold emitWestFace
  split
  · split
    dsimp only
    repeat' split
    all_goals (try dsimp only)
    all_goals (rw [pushQuad_positions_length]; rfl)
  · rfl

theorem emitVoxelFaces_len (reg : BlockRegistry) (sky : Nat) (ltb : Nat → Nat → ℚ)
    (render : Int → Int → Int → Bool) (light : Int → Int → Int → Nat)
    (x y z : Nat) (bid : BlockId) (st : MeshData) :
    (emitVoxelFaces reg sky ltb render light x y z bid st).positions.length =
      st.positions.length + 4 * faceFlagCount render := by
  unfold emitVoxelFaces faceFlagCount
  rw [emitWestFace_len, emitEastFace_len, emitNorthFace_len, emitSouthFace_len,
    emitBottomFace_len, emitTopFace_len]
  by_cases h1 : render 0 1 0 = true <;> by_cases h2 : render 0 (-1) 0 = true <;>
    by_cases h3 : render 0 0 1 = true <;> by_cases h4 : render 0 0 (-1) = true <;>
    by_cases h5 : render 1 0 0 = true <;> by_cases h6 : render (-1) 0 0 = true <;>
    simp [h1, h2, h3, h4, h5, h6] <;> omega

theorem foldl_length_link {α : Type _} (l : List α) (f : MeshData → α → MeshData)
    (k : α → Nat)
    (hstep : ∀ st a, a ∈ l → (f st a).positions.length = st.positions.length + 4 * k a) :
    ∀ st, (l.foldl f st).positions.length = st.positions.length + 4 * (l.map k).sum := by
  induction l with
  | nil => intro st; simp
  | cons hd tl ih =>
    intro st
    rw [List.foldl_cons, List.map_cons, List.sum_cons,
      ih (fun st a ha => hstep st a (List.mem_cons_of_mem hd ha)) (f st hd),
      hstep st hd (List.mem_cons_self hd tl)]
    ring

theorem elim_len (st : MeshData) (n : Nat) (h : st.positions.length = n) :
    (if st.positions.isEmpty then Option.none else Option.some st).elim 0
      (fun m => m.positions.length) = n := by
  split
  · next hempty =>
    rw [List.isEmpty_iff_length_eq_zero] at hempty
    simp only [Option.elim]
    omega
  · simp only [Option.elim]
    exact h

/-- The live builder's output size is four vertices per guard-passing face,
over non-air voxels. -/
theorem create_chunk_mesh_len (chunk : Chunk) (reg : BlockRegistry)
    (neighbors : NeighborChunks) (sky : Nat) (ltb : Nat → Nat → ℚ) :
    (create_chunk_mesh_with_sky_light chunk reg neighbors sky ltb).elim 0
      (fun m => m.positions.length) = 4 * liveFaceCount chunk neighbors := by
  unfold create_chunk_mesh_with_sky_light liveFaceCount
  dsimp only
  refine elim_len _ _ ?_
  refine (foldl_length_link forwardOrder _ (liveVoxelFaceCount chunk neighbors) ?_
    ⟨[], [], [], [], [], []⟩).trans ?_
  · intro st p _
    dsimp only
    unfold liveVoxelFaceCount
    by_cases hb : is_air (chunk.get_block p.1 p.2.1 p.2.2) = true
    · simp [hb]
    · rw [if_neg hb, if_neg hb, emitVoxelFaces_len]
  · simp

/-- An all-air chunk produces no mesh. -/
theorem create_chunk_mesh_all_air (chunk : Chunk) (reg : BlockRegistry)
    (neighbors : NeighborChunks) (sky : Nat) (ltb : Nat → Nat → ℚ)
    (hair : ∀ x y z, chunk.get_block x y z = BlockId.AIR) :
    create_chunk_mesh_with_sky_light chunk reg neighbors sky ltb = Option.none := by
  unfold create_chunk_mesh_with_sky_light
  rw [foldl_id forwardOrder (fun st p _ => by
    dsimp only
    rw [hair p.1 p.2.1 p.2.2]
    rfl) _]
  rfl

/-- Modelled from the spec: a face of voxel `(x,y,z)` is visible iff the voxel
one step in the face's direction is air, resolving a step across the chunk
boundary through the matching neighbor chunk at the wrapped
(mod `CHUNK_SIZE`) local coordinate, and treating a missing neighbor as air
(face visible). -/
def adjacent_is_air_spec (chunk : Chunk) (neighbors : NeighborChunks)
    (x y z : Nat) (dx dy dz : Int) : Bool :=
  let nx : Int := (x : Int) + dx
  let ny : Int := (y : Int) + dy
  let nz : Int := (z : Int) + dz
  let lx : Nat := (nx % (CHUNK_SIZE : Int)).toNat
  let ly : Nat := (ny % (CHUNK_SIZE : Int)).toNat
  let lz : Nat := (nz % (CHUNK_SIZE : Int)).toNat
  if 0 ≤ nx ∧ nx < (CHUNK_SIZE : Int) ∧ 0 ≤ ny ∧ ny < (CHUNK_SIZE : Int) ∧
      0 ≤ nz ∧ nz < (CHUNK_SIZE : Int) then
    is_air (chunk.get_block nx.toNat ny.toNat nz.toNat)
  else
    let nb : Option Chunk :=
      if nx < 0 then neighbors.neg_x
      else if (CHUNK_SIZE : Int) ≤ nx then neighbors.pos_x
      else if ny < 0 then neighbors.neg_y
      else if (CHUNK_SIZE : Int) ≤ ny then neighbors.pos_y
      else if nz < 0 then neighbors.neg_z
      else neighbors.pos_z
    match nb with
    | some n => is_air (n.get_block lx ly lz)
    | none => true

theorem render_eq_spec_up (chunk : Chunk) (nbrs : NeighborChunks)
    (x y z : Fin CHUNK_SIZE) :
    should_render_face_with_neighbors chunk nbrs x y z 0 1 0 =
      adjacent_is_air_spec chunk nbrs x y z 0 1 0 := by
  have hx : (x : Nat) < 16 := x.isLt
  have hy : (y : Nat) < 16 := y.isLt
  have hz : (z : Nat) < 16 := z.isLt
  unfold should_render_face_with_neighbors adjacent_is_air_spec
  dsimp only
  simp only [show ((CHUNK_SIZE : Nat) : Int) = 16 from rfl,
    show (CHUNK_SIZE : Nat) = 16 from rfl]
  split
  · rfl
  · next hin =>
    rw [if_neg (by omega), if_neg (by omega), if_neg (by omega), if_pos (by omega),
      if_neg (by omega), if_neg (by omega), if_neg (by omega), if_pos (by omega)]
    have h1 : ((((x : Nat) : Int) + 0) % 16).toNat = (x : Nat) := by omega
    have h2 : ((((y : Nat) : Int) + 1) % 16).toNat = 0 := by omega
    have h3 : ((((z : Nat) : Int) + 0) % 16).toNat = (z : Nat) := by omega
    rw [h1, h2, h3]

theorem render_eq_spec_down (chunk : Chunk) (nbrs : NeighborChunks)
    (x y z : Fin CHUNK_SIZE) :
    should_render_face_with_neighbors chunk nbrs x y z 0 (-1) 0 =
      adjacent_is_air_spec chunk nbrs x y z 0 (-1) 0 := by
  have hx : (x : Nat) < 16 := x.isLt
  have hy : (y : Nat) < 16 := y.isLt
  have hz : (z : Nat) < 16 := z.isLt
  unfold should_render_face_with_neighbors adjacent_is_air_spec
  dsimp only
  simp only [show ((CHUNK_SIZE : Nat) : Int) = 16 from rfl,
    show (CHUNK_SIZE : Nat) = 16 from rfl]
  split
  · rfl
  · next hin =>
    rw [if_neg (by omega), if_neg (by omega), if_pos (by omega),
      if_neg (by omega), if_neg (by omega), if_pos (by omega)]
    have h1 : ((((x : Nat) : Int) + 0) % 16).toNat = (x : Nat) := by omega
    have h2 : ((((y : Nat) : Int) + -1) % 16).toNat = 15 := by omega
    have h3 : ((((z : Nat) : Int) + 0) % 16).toNat = (z : Nat) := by omega
    rw [h1, h2, h3]

theorem render_eq_spec_south (chunk : Chunk) (nbrs : NeighborChunks)
    (x y z : Fin CHUNK_SIZE) :
    should_render_face_with_neighbors chunk nbrs x y z 0 0 1 =
      adjacent_is_air_spec chunk nbrs x y z 0 0 1 := by
  have hx : (x : Nat) < 16 := x.isLt
  have hy : (y : Nat) < 16 := y.isLt
  have hz : (z : Nat) < 16 := z.isLt
  unfold should_render_face_with_neighbors adjacent_is_air_spec
  dsimp only
  simp only [show ((CHUNK_SIZE : Nat) : Int) = 16 from rfl,
    show (CHUNK_SIZE : Nat) = 16 from rfl]
  split
  · rfl
  · next hin =>
    rw [if_neg (by omega), if_neg (by omega), if_neg (by omega), if_neg (by omega),
      if_neg (by omega), if_pos (by omega),
      if_neg (by omega), if_neg (by omega), if_neg (by omega), if_neg (by omega),
      if_neg (by omega)]
    have h1 : ((((x : Nat) : Int) + 0) % 16).toNat = (x : Nat) := by omega
    have h2 : ((((y : Nat) : Int) + 0) % 16).toNat = (y : Nat) := by omega
    have h3 : ((((z : Nat) : Int) + 1) % 16).toNat = 0 := by omega
    rw [h1, h2, h3]

theorem render_eq_spec_north (chunk : Chunk) (nbrs : NeighborChunks)
    (x y z : Fin CHUNK_SIZE) :
    should_render_face_with_neighbors chunk nbrs x y z 0 0 (-1) =
      adjacent_is_air_spec chunk nbrs x y z 0 0 (-1) := by
  have hx : (x : Nat) < 16 := x.isLt
  have hy : (y : Nat) < 16 := y.isLt
  have hz : (z : Nat) < 16 := z.isLt
  unfold should_render_face_with_neighbors adjacent_is_air_spec
  dsimp only
  simp only [show ((CHUNK_SIZE : Nat) : Int) = 16 from rfl,
    show (CHUNK_SIZE : Nat) = 16 from rfl]
  split
  · rfl
  · next hin =>
    rw [if_neg (by omega), if_neg (by omega), if_neg (by omega), if_neg (by omega),
      if_pos (by omega),
      if_neg (by omega), if_neg (by omega), if_neg (by omega), if_neg (by omega),
      if_pos (by omega)]
    have h1 : ((((x : Nat) : Int) + 0) % 16).toNat = (x : Nat) := by omega
    have h2 : ((((y : Nat) : Int) + 0) % 16).toNat = (y : Nat) := by omega
    have h3 : ((((z : Nat) : Int) + -1) % 16).toNat = 15 := by omega
    rw [h1, h2, h3]

theorem render_eq_spec_east (chunk : Chunk) (nbrs : NeighborChunks)
    (x y z : Fin CHUNK_SIZE) :
    should_render_face_with_neighbors chunk nbrs x y z 1 0 0 =
      adjacent_is_air_spec chunk nbrs x y z 1 0 0 := by
  have hx : (x : Nat) < 16 := x.isLt
  have hy : (y : Nat) < 16 := y.isLt
  have hz : (z : Nat) < 16 := z.isLt
  unfold should_render_face_with_neighbors adjacent_is_air_spec
  dsimp only
  simp only [show ((CHUNK_SIZE : Nat) : Int) = 16 from rfl,
    show (CHUNK_SIZE : Nat) = 16 from rfl]
  split
  · rfl
  · next hin =>
    rw [if_neg (by omega), if_pos (by omega), if_neg (by omega), if_pos (by omega)]
    have h1 : ((((x : Nat) : Int) + 1) % 16).toNat = 0 := by omega
    have h2 : ((((y : Nat) : Int) + 0) % 16).toNat = (y : Nat) := by omega
    have h3 : ((((z : Nat) : Int) + 0) % 16).toNat = (z : Nat) := by omega
    rw [h1, h2, h3]

theorem render_eq_spec_west (chunk : Chunk) (nbrs : NeighborChunks)
    (x y z : Fin CHUNK_SIZE) :
    should_render_face_with_neighbors chunk nbrs x y z (-1) 0 0 =
      adjacent_is_air_spec chunk nbrs x y z (-1) 0 0 := by
  have hx : (x : Nat) < 16 := x.isLt
  have hy : (y : Nat) < 16 := y.isLt
  have hz : (z : Nat) < 16 := z.isLt
  unfold should_render_face_with_neighbors adjacent_is_air_spec
  dsimp only
  simp only [show ((CHUNK_SIZE : Nat) : Int) = 16 from rfl,
    show (CHUNK_SIZE : Nat) = 16 from rfl]
  split
  · rfl
  · next hin =>
    rw [if_pos (by omega), if_pos (by omega)]
    have h1 : ((((x : Nat) : Int) + -1) % 16).toNat = 15 := by omega
    have h2 : ((((y : Nat) : Int) + 0) % 16).toNat = (y : Nat) := by omega
    have h3 : ((((z : Nat) : Int) + 0) % 16).toNat = (z : Nat) := by omega
    rw [h1, h2, h3]

/-- When the only possibly-non-air voxel is `(0,0,0)`, the live builder's
whole-chunk fold collapses to that single voxel's face emission. -/
theorem create_chunk_mesh_single (chunk : Chunk) (reg : BlockRegistry)
    (neighbors : NeighborChunks) (sky : Nat) (ltb : Nat → Nat → ℚ)
    (hair : ∀ p : Nat × Nat × Nat, p ∈ forwardOrder → p ≠ (0, 0, 0) →
      chunk.get_block p.1 p.2.1 p.2.2 = BlockId.AIR) :
    create_chunk_mesh_with_sky_light chunk reg neighbors sky ltb =
      (let st : MeshData :=
        if is_air (chunk.get_block 0 0 0) then ⟨[], [], [], [], [], []⟩
        else
          emitVoxelFaces reg sky ltb
            (fun dx dy dz =>
              should_render_face_with_neighbors chunk neighbors 0 0 0 dx dy dz)
            (fun ax ay az => get_light_at chunk neighbors ax ay az)
            0 0 0 (chunk.get_block 0 0 0) ⟨[], [], [], [], [], []⟩
       if st.positions.isEmpty then Option.none else some st) := by
  unfold create_chunk_mesh_with_sky_light
  dsimp only
  rw [foldl_single_active
    (fun (st : MeshData) (p : Nat × Nat × Nat) =>
      let block_id := chunk.get_block p.1 p.2.1 p.2.2
      if is_air block_id then st
      else
        emitVoxelFaces reg sky ltb
          (fun dx dy dz =>
            should_render_face_with_neighbors chunk neighbors p.1 p.2.1 p.2.2 dx dy dz)
          (fun ax ay az => get_light_at chunk neighbors ax ay az)
          p.1 p.2.1 p.2.2 block_id st)
    forwardOrder (0, 0, 0)
    (mem_forwardOrder_iff.mpr (by decide)) forwardOrder_nodup
    (fun s p hp hne => by
      dsimp only
      rw [hair p hp hne]
      rfl)]

theorem cached_render_eq_up (chunk nb : Chunk)
    (gb : Int → Int → Int → Nat → Nat → Nat → BlockId)
    (nbrs : NeighborChunks)
    (hgb : ∀ a b d, gb 0 1 0 a b d = nb.get_block a b d)
    (hnb : nbrs.pos_y = some nb) (x y z : Fin CHUNK_SIZE) :
    cached_should_render_face chunk gb x y z 0 1 0 =
      should_render_face_with_neighbors chunk nbrs x y z 0 1 0 := by
  have hx : (x : Nat) < 16 := x.isLt
  have hy : (y : Nat) < 16 := y.isLt
  have hz : (z : Nat) < 16 := z.isLt
  unfold cached_should_render_face should_render_face_with_neighbors
  dsimp only
  simp only [show ((CHUNK_SIZE : Nat) : Int) = 16 from rfl,
    show (CHUNK_SIZE : Nat) = 16 from rfl]
  split
  · rfl
  · next hin =>
    rw [if_neg (by omega), if_neg (by omega), if_neg (by omega), if_pos (by omega), if_neg (by omega), if_neg (by omega), if_neg (by omega), if_pos (by omega), hnb, hgb]

theorem cached_render_eq_down (chunk nb : Chunk)
    (gb : Int → Int → Int → Nat → Nat → Nat → BlockId)
    (nbrs : NeighborChunks)
    (hgb : ∀ a b d, gb 0 (-1) 0 a b d = nb.get_block a b d)
    (hnb : nbrs.neg_y = some nb) (x y z : Fin CHUNK_SIZE) :
    cached_should_render_face chunk gb x y z 0 (-1) 0 =
      should_render_face_with_neighbors chunk nbrs x y z 0 (-1) 0 := by
  have hx : (x : Nat) < 16 := x.isLt
  have hy : (y : Nat) < 16 := y.isLt
  have hz : (z : Nat) < 16 := z.isLt
  unfold cached_should_render_face should_render_face_with_neighbors
  dsimp only
  simp only [show ((CHUNK_SIZE : Nat) : Int) = 16 from rfl,
    show (CHUNK_SIZE : Nat) = 16 from rfl]
  split
  · rfl
  · next hin =>
    rw [if_neg (by omega), if_neg (by omega), if_pos (by omega), if_neg (by omega), if_neg (by omega), if_pos (by omega), hnb, hgb]

theorem cached_render_eq_south (chunk nb : Chunk)
    (gb : Int → Int → Int → Nat → Nat → Nat → BlockId)
    (nbrs : NeighborChunks)
    (hgb : ∀ a b d, gb 0 0 1 a b d = nb.get_block a b d)
    (hnb : nbrs.pos_z = some nb) (x y z : Fin CHUNK_SIZE) :
    cached_should_render_face chunk gb x y z 0 0 1 =
      should_render_face_with_neighbors chunk nbrs x y z 0 0 1 := by
  have hx : (x : Nat) < 16 := x.isLt
  have hy : (y : Nat) < 16 := y.isLt
  have hz : (z : Nat) < 16 := z.isLt
  unfold cached_should_render_face should_render_face_with_neighbors
  dsimp only
  simp only [show ((CHUNK_SIZE : Nat) : Int) = 16 from rfl,
    show (CHUNK_SIZE : Nat) = 16 from rfl]
  split
  · rfl
  · next hin =>
    rw [if_neg (by omega), if_neg (by omega), if_neg (by omega), if_neg (by omega), if_neg (by omega), if_pos (by omega), if_neg (by omega), if_neg (by omega), if_neg (by omega), if_neg (by omega), if_neg (by omega), if_pos (by omega), hnb, hgb]

theorem cached_render_eq_north (chunk nb : Chunk)
    (gb : Int → Int → Int → Nat → Nat → Nat → BlockId)
    (nbrs : NeighborChunks)
    (hgb : ∀ a b d, gb 0 0 (-1) a b d = nb.get_block a b d)
    (hnb : nbrs.neg_z = some nb) (x y z : Fin CHUNK_SIZE) :
    cached_should_render_face chunk gb x y z 0 0 (-1) =
      should_render_face_with_neighbors chunk nbrs x y z 0 0 (-1) := by
  have hx : (x : Nat) < 16 := x.isLt
  have hy : (y : Nat) < 16 := y.isLt
  have hz : (z : Nat) < 16 := z.isLt
  unfold cached_should_render_face should_render_face_with_neighbors
  dsimp only
  simp only [show ((CHUNK_SIZE : Nat) : Int) = 16 from rfl,
    show (CHUNK_SIZE : Nat) = 16 from rfl]
  split
  · rfl
  · next hin =>
    rw [if_neg (by omega), if_neg (by omega), if_neg (by omega), if_neg (by omega), if_pos (by omega), if_neg (by omega), if_neg (by omega), if_neg (by omega), if_neg (by omega), if_pos (by omega), hnb, hgb]

theorem cached_render_eq_east (chunk nb : Chunk)
    (gb : Int → Int → Int → Nat → Nat → Nat → BlockId)
    (nbrs : NeighborChunks)
    (hgb : ∀ a b d, gb 1 0 0 a b d = nb.get_block a b d)
    (hnb : nbrs.pos_x = some nb) (x y z : Fin CHUNK_SIZE) :
    cached_should_render_face chunk gb x y z 1 0 0 =
      should_render_face_with_neighbors chunk nbrs x y z 1 0 0 := by
  have hx : (x : Nat) < 16 := x.isLt
  have hy : (y : Nat) < 16 := y.isLt
  have hz : (z : Nat) < 16 := z.isLt
  unfold cached_should_render_face should_render_face_with_neighbors
  dsimp only
  simp only [show ((CHUNK_SIZE : Nat) : Int) = 16 from rfl,
    show (CHUNK_SIZE : Nat) = 16 from rfl]
  split
  · rfl
  · next hin =>
    rw [if_neg (by omega), if_pos (by omega), if_neg (by omega), if_pos (by omega), hnb, hgb]

theorem cached_render_eq_west (chunk nb : Chunk)
    (gb : Int → Int → Int → Nat → Nat → Nat → BlockId)
    (nbrs : NeighborChunks)
    (hgb : ∀ a b d, gb (-1) 0 0 a b d = nb.get_block a b d)
    (hnb : nbrs.neg_x = some nb) (x y z : Fin CHUNK_SIZE) :
    cached_should_render_face chunk gb x y z (-1) 0 0 =
      should_render_face_with_neighbors chunk nbrs x y z (-1) 0 0 := by
  have hx : (x : Nat) < 16 := x.isLt
  have hy : (y : Nat) < 16 := y.isLt
  have hz : (z : Nat) < 16 := z.isLt
  unfold cached_should_render_face should_render_face_with_neighbors
  dsimp only
  simp only [show ((CHUNK_SIZE : Nat) : Int) = 16 from rfl,
    show (CHUNK_SIZE : Nat) = 16 from rfl]
  split
  · rfl
  · next hin =>
    rw [if_pos (by omega), if_pos (by omega), hnb, hgb]

theorem cached_light_eq_up (chunk nb : Chunk)
    (gl : Int → Int → Int → Nat → Nat → Nat → Nat)
    (nbrs : NeighborChunks)
    (hgl : ∀ a b d, gl 0 1 0 a b d = nb.get_light a b d)
    (hnb : nbrs.pos_y = some nb) (x y z : Fin CHUNK_SIZE) :
    cached_get_light chunk gl ((x : Nat) : Int) (((y : Nat) : Int) + 1) ((z : Nat) : Int) =
      get_light_at chunk nbrs ((x : Nat) : Int) (((y : Nat) : Int) + 1) ((z : Nat) : Int) := by
  have hx : (x : Nat) < 16 := x.isLt
  have hy : (y : Nat) < 16 := y.isLt
  have hz : (z : Nat) < 16 := z.isLt
  unfold cached_get_light get_light_at clampCoord
  simp only [show ((CHUNK_SIZE : Nat) : Int) = 16 from rfl,
    show (CHUNK_SIZE : Nat) = 16 from rfl]
  split
  · rfl
  · next hin =>
    rw [if_pos (by omega), if_pos (by omega), hnb]
    dsimp only
    have ex : (((((x : Nat) : Int)) ⊔ 0) ⊓ (16 - 1)).toNat =
        ((x : Nat) : Int).toNat := by omega
    have ez : (((((z : Nat) : Int)) ⊔ 0) ⊓ (16 - 1)).toNat =
        ((z : Nat) : Int).toNat := by omega
    rw [if_pos (by omega), hgl, ex, ez]

theorem cached_light_eq_down (chunk nb : Chunk)
    (gl : Int → Int → Int → Nat → Nat → Nat → Nat)
    (nbrs : NeighborChunks)
    (hgl : ∀ a b d, gl 0 (-1) 0 a b d = nb.get_light a b d)
    (hnb : nbrs.neg_y = some nb) (x y z : Fin CHUNK_SIZE) :
    cached_get_light chunk gl ((x : Nat) : Int) (((y : Nat) : Int) - 1) ((z : Nat) : Int) =
      get_light_at chunk nbrs ((x : Nat) : Int) (((y : Nat) : Int) - 1) ((z : Nat) : Int) := by
  have hx : (x : Nat) < 16 := x.isLt
  have hy : (y : Nat) < 16 := y.isLt
  have hz : (z : Nat) < 16 := z.isLt
  unfold cached_get_light get_light_at clampCoord
  simp only [show ((CHUNK_SIZE : Nat) : Int) = 16 from rfl,
    show (CHUNK_SIZE : Nat) = 16 from rfl]
  split
  · rfl
  · next hin =>
    rw [if_neg (by omega), if_pos (by omega), if_neg (by omega), if_pos (by omega), hnb]
    dsimp only
    have ex : (((((x : Nat) : Int)) ⊔ 0) ⊓ (16 - 1)).toNat =
        ((x : Nat) : Int).toNat := by omega
    have ez : (((((z : Nat) : Int)) ⊔ 0) ⊓ (16 - 1)).toNat =
        ((z : Nat) : Int).toNat := by omega
    rw [if_pos (by omega), hgl, ex, ez]

theorem cached_light_eq_south (chunk nb : Chunk)
    (gl : Int → Int → Int → Nat → Nat → Nat → Nat)
    (nbrs : NeighborChunks)
    (hgl : ∀ a b d, gl 0 0 1 a b d = nb.get_light a b d)
    (hnb : nbrs.pos_z = some nb) (x y z : Fin CHUNK_SIZE) :
    cached_get_light chunk gl ((x : Nat) : Int) ((y : Nat) : Int) (((z : Nat) : Int) + 1) =
      get_light_at chunk nbrs ((x : Nat) : Int) ((y : Nat) : Int) (((z : Nat) : Int) + 1) := by
  have hx : (x : Nat) < 16 := x.isLt
  have hy : (y : Nat) < 16 := y.isLt
  have hz : (z : Nat) < 16 := z.isLt
  unfold cached_get_light get_light_at clampCoord
  simp only [show ((CHUNK_SIZE : Nat) : Int) = 16 from rfl,
    show (CHUNK_SIZE : Nat) = 16 from rfl]
  split
  · rfl
  · next hin =>
    rw [if_neg (by omega), if_neg (by omega), if_neg (by omega), if_neg (by omega), if_neg (by omega), if_pos (by omega), if_neg (by omega), if_neg (by omega), if_neg (by omega), if_neg (by omega), if_neg (by omega), if_pos (by omega), hnb]
    dsimp only
    rw [if_pos (by omega), hgl]

theorem cached_light_eq_north (chunk nb : Chunk)
    (gl : Int → Int → Int → Nat → Nat → Nat → Nat)
    (nbrs : NeighborChunks)
    (hgl : ∀ a b d, gl 0 0 (-1) a b d = nb.get_light a b d)
    (hnb : nbrs.neg_z = some nb) (x y z : Fin CHUNK_SIZE) :
    cached_get_light chunk gl ((x : Nat) : Int) ((y : Nat) : Int) (((z : Nat) : Int) - 1) =
      get_light_at chunk nbrs ((x : Nat) : Int) ((y : Nat) : Int) (((z : Nat) : Int) - 1) := by
  have hx : (x : Nat) < 16 := x.isLt
  have hy : (y : Nat) < 16 := y.isLt
  have hz : (z : Nat) < 16 := z.isLt
  unfold cached_get_light get_light_at clampCoord
  simp only [show ((CHUNK_SIZE : Nat) : Int) = 16 from rfl,
    show (CHUNK_SIZE : Nat) = 16 from rfl]
  split
  · rfl
  · next hin =>
    rw [if_neg (by omega), if_neg (by omega), if_neg (by omega), if_neg (by omega), if_pos (by omega), if_neg (by omega), if_neg (by omega), if_neg (by omega), if_neg (by omega), if_pos (by omega), hnb]
    dsimp only
    rw [if_pos (by omega), hgl]

theorem cached_light_eq_east (chunk nb : Chunk)
    (gl : Int → Int → Int → Nat → Nat → Nat → Nat)
    (nbrs : NeighborChunks)
    (hgl : ∀ a b d, gl 1 0 0 a b d = nb.get_light a b d)
    (hnb : nbrs.pos_x = some nb) (x y z : Fin CHUNK_SIZE) :
    cached_get_light chunk gl (((x : Nat) : Int) + 1) ((y : Nat) : Int) ((z : Nat) : Int) =
      get_light_at chunk nbrs (((x : Nat) : Int) + 1) ((y : Nat) : Int) ((z : Nat) : Int) := by
  have hx : (x : Nat) < 16 := x.isLt
  have hy : (y : Nat) < 16 := y.isLt
  have hz : (z : Nat) < 16 := z.isLt
  unfold cached_get_light get_light_at clampCoord
  simp only [show ((CHUNK_SIZE : Nat) : Int) = 16 from rfl,
    show (CHUNK_SIZE : Nat) = 16 from rfl]
  split
  · rfl
  · next hin =>
    rw [if_neg (by omega), if_neg (by omega), if_neg (by omega), if_pos (by omega), if_neg (by omega), if_neg (by omega), if_neg (by omega), if_pos (by omega), hnb]
    dsimp only
    have ez : (((((z : Nat) : Int)) ⊔ 0) ⊓ (16 - 1)).toNat =
        ((z : Nat) : Int).toNat := by omega
    rw [if_pos (by omega), hgl, ez]

theorem cached_light_eq_west (chunk nb : Chunk)
    (gl : Int → Int → Int → Nat → Nat → Nat → Nat)
    (nbrs : NeighborChunks)
    (hgl : ∀ a b d, gl (-1) 0 0 a b d = nb.get_light a b d)
    (hnb : nbrs.neg_x = some nb) (x y z : Fin CHUNK_SIZE) :
    cached_get_light chunk gl (((x : Nat) : Int) - 1) ((y : Nat) : Int) ((z : Nat) : Int) =
      get_light_at chunk nbrs (((x : Nat) : Int) - 1) ((y : Nat) : Int) ((z : Nat) : Int) := by
  have hx : (x : Nat) < 16 := x.isLt
  have hy : (y : Nat) < 16 := y.isLt
  have hz : (z : Nat) < 16 := z.isLt
  unfold cached_get_light get_light_at clampCoord
  simp only [show ((CHUNK_SIZE : Nat) : Int) = 16 from rfl,
    show (CHUNK_SIZE : Nat) = 16 from rfl]
  split
  · rfl
  · next hin =>
    rw [if_neg (by omega), if_neg (by omega), if_pos (by omega), if_neg (by omega), if_neg (by omega), if_pos (by omega), hnb]
    dsimp only
    have ez : (((((z : Nat) : Int)) ⊔ 0) ⊓ (16 - 1)).toNat =
        ((z : Nat) : Int).toNat := by omega
    rw [if_pos (by omega), hgl, ez]

/-- Face emission only consults the six unit-offset render guards and the six
face-adjacent light positions, so agreement there gives equal output. -/
theorem emitVoxelFaces_congr (reg : BlockRegistry) (sky : Nat) (ltb : Nat → Nat → ℚ)
    (r r' : Int → Int → Int → Bool) (li li' : Int → Int → Int → Nat)
    (x y z : Nat) (bid : BlockId) (st : MeshData)
    (hr1 : r 0 1 0 = r' 0 1 0) (hr2 : r 0 (-1) 0 = r' 0 (-1) 0)
    (hr3 : r 0 0 1 = r' 0 0 1) (hr4 : r 0 0 (-1) = r' 0 0 (-1))
    (hr5 : r 1 0 0 = r' 1 0 0) (hr6 : r (-1) 0 0 = r' (-1) 0 0)
    (hl1 : li (x : Int) ((y : Int) + 1) (z : Int) =
      li' (x : Int) ((y : Int) + 1) (z : Int))
    (hl2 : li (x : Int) ((y : Int) - 1) (z : Int) =
      li' (x : Int) ((y : Int) - 1) (z : Int))
    (hl3 : li (x : Int) (y : Int) ((z : Int) + 1) =
      li' (x : Int) (y : Int) ((z : Int) + 1))
    (hl4 : li (x : Int) (y : Int) ((z : Int) - 1) =
      li' (x : Int) (y : Int) ((z : Int) - 1))
    (hl5 : li ((x : Int) + 1) (y : Int) (z : Int) =
      li' ((x : Int) + 1) (y : Int) (z : Int))
    (hl6 : li ((x : Int) - 1) (y : Int) (z : Int) =
      li' ((x : Int) - 1) (y : Int) (z : Int)) :
    emitVoxelFaces reg sky ltb r li x y z bid st =
      emitVoxelFaces reg sky ltb r' li' x y z bid st := by
  unfold emitVoxelFaces emitTopFace emitBottomFace emitSouthFace emitNorthFace
    emitEastFace emitWestFace
  rw [hr1, hr2, hr3, hr4, hr5, hr6, hl1, hl2, hl3, hl4, hl5, hl6]

/-- **C9** (amended): when all six neighbors are present and the cached
builder's block/light accessors return exactly those neighbors' data, the
cached-accessor builder and the live-reference builder produce identical
meshes. The original claim's extension to absent neighbors is refuted by
`C9_counterexample`. -/
theorem C9_mesh_builders_agree (chunk : Chunk) (reg : BlockRegistry)
    (sky : Nat) (ltb : Nat → Nat → ℚ) (nxn nxp nyn nyp nzn nzp : Chunk)
    (gb : Int → Int → Int → Nat → Nat → Nat → BlockId)
    (gl : Int → Int → Int → Nat → Nat → Nat → Nat)
    (hgb1 : ∀ a b d, gb (-1) 0 0 a b d = nxn.get_block a b d)
    (hgb2 : ∀ a b d, gb 1 0 0 a b d = nxp.get_block a b d)
    (hgb3 : ∀ a b d, gb 0 (-1) 0 a b d = nyn.get_block a b d)
    (hgb4 : ∀ a b d, gb 0 1 0 a b d = nyp.get_block a b d)
    (hgb5 : ∀ a b d, gb 0 0 (-1) a b d = nzn.get_block a b d)
    (hgb6 : ∀ a b d, gb 0 0 1 a b d = nzp.get_block a b d)
    (hgl1 : ∀ a b d, gl (-1) 0 0 a b d = nxn.get_light a b d)
    (hgl2 : ∀ a b d, gl 1 0 0 a b d = nxp.get_light a b d)
    (hgl3 : ∀ a b d, gl 0 (-1) 0 a b d = nyn.get_light a b d)
    (hgl4 : ∀ a b d, gl 0 1 0 a b d = nyp.get_light a b d)
    (hgl5 : ∀ a b d, gl 0 0 (-1) a b d = nzn.get_light a b d)
    (hgl6 : ∀ a b d, gl 0 0 1 a b d = nzp.get_light a b d) :
    create_chunk_mesh_with_cached_neighbors chunk reg sky gb gl ltb =
      create_chunk_mesh_with_sky_light chunk reg
        ⟨some nxn, some nxp, some nyn, some nyp, some nzn, some nzp⟩ sky ltb := by
  unfold create_chunk_mesh_with_cached_neighbors create_chunk_mesh_with_sky_light
  dsimp only
  refine congrArg
    (fun st : MeshData => if st.positions.isEmpty then Option.none else some st) ?_
  refine foldl_congr_mem forwardOrder ?_ _
  intro st p hp
  obtain ⟨a, b, d⟩ := p
  obtain ⟨ha, hb, hd⟩ := mem_forwardOrder_iff.mp hp
  dsimp only at ha hb hd ⊢
  by_cases hair : is_air (chunk.get_block a b d) = true
  · rw [if_pos hair, if_pos hair]
  · rw [if_neg hair, if_neg hair]
    exact emitVoxelFaces_congr reg sky ltb _ _ _ _ a b d _ st
      (cached_render_eq_up chunk nyp gb _ hgb4 rfl ⟨a, ha⟩ ⟨b, hb⟩ ⟨d, hd⟩)
      (cached_render_eq_down chunk nyn gb _ hgb3 rfl ⟨a, ha⟩ ⟨b, hb⟩ ⟨d, hd⟩)
      (cached_render_eq_south chunk nzp gb _ hgb6 rfl ⟨a, ha⟩ ⟨b, hb⟩ ⟨d, hd⟩)
      (cached_render_eq_north chunk nzn gb _ hgb5 rfl ⟨a, ha⟩ ⟨b, hb⟩ ⟨d, hd⟩)
      (cached_render_eq_east chunk nxp gb _ hgb2 rfl ⟨a, ha⟩ ⟨b, hb⟩ ⟨d, hd⟩)
      (cached_render_eq_west chunk nxn gb _ hgb1 rfl ⟨a, ha⟩ ⟨b, hb⟩ ⟨d, hd⟩)
      (cached_light_eq_up chunk nyp gl _ hgl4 rfl ⟨a, ha⟩ ⟨b, hb⟩ ⟨d, hd⟩)
      (cached_light_eq_down chunk nyn gl _ hgl3 rfl ⟨a, ha⟩ ⟨b, hb⟩ ⟨d, hd⟩)
      (cached_light_eq_south chunk nzp gl _ hgl6 rfl ⟨a, ha⟩ ⟨b, hb⟩ ⟨d, hd⟩)
      (cached_light_eq_north chunk nzn gl _ hgl5 rfl ⟨a, ha⟩ ⟨b, hb⟩ ⟨d, hd⟩)
      (cached_light_eq_east chunk nxp gl _ hgl2 rfl ⟨a, ha⟩ ⟨b, hb⟩ ⟨d, hd⟩)
      (cached_light_eq_west chunk nxn gl _ hgl1 rfl ⟨a, ha⟩ ⟨b, hb⟩ ⟨d, hd⟩)

/-- Cached-builder analogue of `create_chunk_mesh_single`. -/
theorem create_chunk_mesh_cached_single (chunk : Chunk) (reg : BlockRegistry)
    (sky : Nat) (gb : Int → Int → Int → Nat → Nat → Nat → BlockId)
    (gl : Int → Int → Int → Nat → Nat → Nat → Nat) (ltb : Nat → Nat → ℚ)
    (hair : ∀ p : Nat × Nat × Nat, p ∈ forwardOrder → p ≠ (0, 0, 0) →
      chunk.get_block p.1 p.2.1 p.2.2 = BlockId.AIR) :
    create_chunk_mesh_with_cached_neighbors chunk reg sky gb gl ltb =
      (let st : MeshData :=
        if is_air (chunk.get_block 0 0 0) then ⟨[], [], [], [], [], []⟩
        else
          emitVoxelFaces reg sky ltb
            (fun dx dy dz => cached_should_render_face chunk gb 0 0 0 dx dy dz)
            (fun ax ay az => cached_get_light chunk gl ax ay az)
            0 0 0 (chunk.get_block 0 0 0) ⟨[], [], [], [], [], []⟩
       if st.positions.isEmpty then Option.none else some st) := by
  unfold create_chunk_mesh_with_cached_neighbors
  dsimp only
  rw [foldl_single_active
    (fun (st : MeshData) (p : Nat × Nat × Nat) =>
      let block_id := chunk.get_block p.1 p.2.1 p.2.2
      if is_air block_id then st
      else
        emitVoxelFaces reg sky ltb
          (fun dx dy dz =>
            cached_should_render_face chunk gb p.1 p.2.1 p.2.2 dx dy dz)
          (fun ax ay az => cached_get_light chunk gl ax ay az)
          p.1 p.2.1 p.2.2 block_id st)
    forwardOrder (0, 0, 0)
    (mem_forwardOrder_iff.mpr (by decide)) forwardOrder_nodup
    (fun s p hp hne => by
      dsimp only
      rw [hair p hp hne]
      rfl)]

/-! ## Terrain generation (`world/terrain.rs`) -/

/-- Block choice for one voxel of a column (`terrain.rs` 254-278): void
below y=0, bedrock at y=0, air above the terrain height, grass at the
surface, dirt down to depth 3, stone below. -/
def terrainBlock (terrain_height world_y : Int)
    (grass_id dirt_id stone_id bedrock_id : BlockId) : BlockId :=
  let depth_from_surface := terrain_height - world_y
  if world_y < 0 then BlockId.AIR
  else if world_y = 0 then bedrock_id
  else if terrain_height < world_y then BlockId.AIR
  else if depth_from_surface = 0 then grass_id
  else if depth_from_surface ≤ 3 then dirt_id
  else stone_id

/-- One (x, z) column of the fill loop (`terrain.rs` 245-283). -/
def fillTerrainColumn (height : Int → Int → Int) (coord : ChunkCoord)
    (grass_id dirt_id stone_id bedrock_id : BlockId) (c : Chunk)
    (x z : Nat) : Chunk :=
  let world_x := coord.x * (CHUNK_SIZE : Int) + (x : Int)
  let world_z := coord.z * (CHUNK_SIZE : Int) + (z : Int)
  let terrain_height := height world_x world_z
  (List.range CHUNK_SIZE).foldl
    (fun c (y : Nat) =>
      let world_y := coord.y * (CHUNK_SIZE : Int) + (y : Int)
      c.set_block x y z
        (terrainBlock terrain_height world_y grass_id dirt_id stone_id bedrock_id))
    c

/-- The full fill loop over all (x, z) columns (z outer, x inner). -/
def fillTerrain (height : Int → Int → Int) (coord : ChunkCoord)
    (grass_id dirt_id stone_id bedrock_id : BlockId) (c : Chunk) : Chunk :=
  columnOrder.foldl
    (fun c p => fillTerrainColumn height coord grass_id dirt_id stone_id bedrock_id c p.1 p.2)
    c

/-- `generate_chunk` (`terrain.rs` 224-292): fill a fresh chunk from the
height field, run the isolated skylight pass, build the initial mesh.
`get_terrain_height` (`terrain.rs` 192-222) sums five octaves of the
external `noise` crate's `f64` Simplex noise seeded by `Simplex::new(seed)`
(a pure constructor); that floating-point computation is abstracted as the
integer height field `height` of the world (x, z) column, a function of the
seed alone. -/
def generate_chunk (height : Int → Int → Int) (coord : ChunkCoord)
    (grass_id dirt_id stone_id bedrock_id : BlockId)
    (block_registry : BlockRegistry) (ltb : Nat → Nat → ℚ) :
    ChunkCoord × Chunk × Option MeshData :=
  let chunk := fillTerrain height coord grass_id dirt_id stone_id bedrock_id (Chunk.new coord)
  let chunk := chunk.calculate_skylight
  (coord, chunk, create_chunk_mesh chunk block_registry ltb)

/-! ## Blocks are untouched by the lighting pass -/

theorem blocks_seedColumnStep (x z : Nat) (acc : Chunk × Bool) (y : Nat) :
    (seedColumnStep x z acc y).1.blocks = acc.1.blocks := by
  obtain ⟨v, hv⟩ := seedColumnStep_fst x z acc y
  rw [hv]
  exact Chunk.blocks_set_light _ _ _ _ _

theorem blocks_seedColumn (c : Chunk) (x z : Nat) (sh : Bool) :
    (seedColumn c x z sh).blocks = c.blocks := by
  unfold seedColumn
  exact @foldl_pres _ _ (seedColumnStep x z)
    (fun acc : Chunk × Bool => acc.1.blocks = c.blocks) _
    (fun p a _ hp => (blocks_seedColumnStep x z p a).trans hp) (c, sh) rfl

theorem blocks_seedPass (c : Chunk) (nbrs : NeighborLightData) :
    (seedPass c nbrs).blocks = c.blocks := by
  unfold seedPass
  exact @foldl_pres _ _ _ (fun ch : Chunk => ch.blocks = c.blocks) _
    (fun ch p _ hp => (blocks_seedColumn ch p.1 p.2 _).trans hp) c rfl

theorem blocks_of_stepWrites {g : Chunk → Nat → Nat → Nat → Chunk × Bool}
    (hg : stepWrites g) (c : Chunk) (x y z : Nat) :
    (g c x y z).1.blocks = c.blocks := by
  rcases hg c x y z with h | ⟨v, _, h⟩
  · rw [h]
  · rw [h]
    exact Chunk.blocks_set_light _ _ _ _ _

theorem blocks_voxelSweepStep {g : Chunk → Nat → Nat → Nat → Chunk × Bool}
    (hg : stepWrites g) (acc : Chunk × Bool) (p : Nat × Nat × Nat) :
    (voxelSweepStep g acc p).1.blocks = acc.1.blocks := by
  unfold voxelSweepStep
  split
  · exact blocks_of_stepWrites hg acc.1 p.1 p.2.1 p.2.2
  · rfl

theorem blocks_sweepOnce {g : Chunk → Nat → Nat → Nat → Chunk × Bool}
    (hg : stepWrites g) (c : Chunk) : (sweepOnce g c).1.blocks = c.blocks := by
  unfold sweepOnce
  have h1 := @foldl_pres _ _ (voxelSweepStep g)
    (fun acc : Chunk × Bool => acc.1.blocks = c.blocks) forwardOrder
    (fun p a _ hp => (blocks_voxelSweepStep hg p a).trans hp) (c, false) rfl
  exact @foldl_pres _ _ (voxelSweepStep g)
    (fun acc : Chunk × Bool => acc.1.blocks = c.blocks) backwardOrder
    (fun p a _ hp => (blocks_voxelSweepStep hg p a).trans hp) _ h1

theorem blocks_loopAux (sweep : Chunk → Chunk × Bool)
    (hsw : ∀ c, (sweep c).1.blocks = c.blocks) :
    ∀ fuel c, (loopAux sweep fuel c).blocks = c.blocks := by
  intro fuel
  induction fuel with
  | zero => intro c; rfl
  | succ n ih =>
    intro c
    unfold loopAux
    dsimp only
    split
    · exact (ih _).trans (hsw c)
    · exact hsw c

theorem blocks_calculate_skylight (c : Chunk) :
    (Chunk.calculate_skylight c).blocks = c.blocks := by
  unfold Chunk.calculate_skylight Chunk.calculate_skylight_with_neighbors floodLoop
  refine (blocks_loopAux _ ?_ _ _).trans (blocks_seedPass c _)
  intro c2
  unfold sweepPair
  exact blocks_sweepOnce (stepWrites_propagate_ext _) c2

theorem Chunk.get_block_congr {c1 c2 : Chunk} (h : c1.blocks = c2.blocks)
    (a b d : Nat) : c1.get_block a b d = c2.get_block a b d := by
  unfold Chunk.get_block
  split
  · exact List.get_of_eq h _
  · rfl

/-! ## Terrain coverage -/

theorem columnOrder_bounds {p : Nat × Nat} (hp : p ∈ columnOrder) :
    p.1 < CHUNK_SIZE ∧ p.2 < CHUNK_SIZE := by
  obtain ⟨a, d⟩ := p
  unfold columnOrder at hp
  simp only [List.mem_flatMap, List.mem_map, List.mem_range] at hp
  obtain ⟨z', hz', x', hx', heq⟩ := hp
  injection heq with h1 h2
  exact ⟨h1 ▸ hx', h2 ▸ hz'⟩

theorem fillTerrainColumn_get (height : Int → Int → Int) (coord : ChunkCoord)
    (g d s b : BlockId) (ch : Chunk) (x z : Nat)
    (hx : x < CHUNK_SIZE) (hz : z < CHUNK_SIZE) (y : Fin CHUNK_SIZE) :
    (fillTerrainColumn height coord g d s b ch x z).get_block x y z =
      terrainBlock
        (height (coord.x * (CHUNK_SIZE : Int) + (x : Int))
          (coord.z * (CHUNK_SIZE : Int) + (z : Int)))
        (coord.y * (CHUNK_SIZE : Int) + ((y : Nat) : Int)) g d s b := by
  unfold fillTerrainColumn
  refine @foldl_establish _ _ _
    (fun (y' : Nat) (c2 : Chunk) => y' = (y : Nat) →
      c2.get_block x (y : Nat) z =
        terrainBlock
          (height (coord.x * (CHUNK_SIZE : Int) + (x : Int))
            (coord.z * (CHUNK_SIZE : Int) + (z : Int)))
          (coord.y * (CHUNK_SIZE : Int) + ((y : Nat) : Int)) g d s b)
    _ ?_ ?_ ch (y : Nat) (List.mem_range.mpr y.isLt) rfl
  · intro c2 y' hy'
    subst hy'
    exact Chunk.get_block_set_block_self c2 hx y.isLt hz _
  · intro c2 y' y'' hq hy''
    subst hy''
    by_cases hcase : (y : Nat) = y'
    · subst hcase
      exact Chunk.get_block_set_block_self c2 hx y.isLt hz _
    · rw [Chunk.get_block_set_block_ne c2 _
        (fun hcon => hcase hcon.2.1)]
      exact hq rfl

theorem fillTerrain_get (height : Int → Int → Int) (coord : ChunkCoord)
    (g d s b : BlockId) (c : Chunk) (x y z : Fin CHUNK_SIZE) :
    (fillTerrain height coord g d s b c).get_block x y z =
      terrainBlock
        (height (coord.x * (CHUNK_SIZE : Int) + ((x : Nat) : Int))
          (coord.z * (CHUNK_SIZE : Int) + ((z : Nat) : Int)))
        (coord.y * (CHUNK_SIZE : Int) + ((y : Nat) : Int)) g d s b := by
  unfold fillTerrain
  refine @foldl_establish _ _ _
    (fun (p : Nat × Nat) (c2 : Chunk) => p = ((x : Nat), (z : Nat)) →
      c2.get_block x y z =
        terrainBlock
          (height (coord.x * (CHUNK_SIZE : Int) + ((x : Nat) : Int))
            (coord.z * (CHUNK_SIZE : Int) + ((z : Nat) : Int)))
          (coord.y * (CHUNK_SIZE : Int) + ((y : Nat) : Int)) g d s b)
    _ ?_ ?_ c ((x : Nat), (z : Nat)) (mem_columnOrder x.isLt z.isLt) rfl
  · intro c2 p hp
    subst hp
    exact fillTerrainColumn_get height coord g d s b c2 _ _ x.isLt z.isLt y
  · intro c2 p p' hq hp'
    subst hp'
    by_cases hcase : p = ((x : Nat), (z : Nat))
    · subst hcase
      exact fillTerrainColumn_get height coord g d s b c2 _ _ x.isLt z.isLt y
    · have hne : p.1 ≠ (x : Nat) ∨ p.2 ≠ (z : Nat) := by
        by_contra hcon
        push_neg at hcon
        exact hcase (Prod.ext hcon.1 hcon.2)
      unfold fillTerrainColumn
      refine @foldl_pres _ _ _
        (fun c3 : Chunk => c3.get_block x y z =
          terrainBlock
            (height (coord.x * (CHUNK_SIZE : Int) + ((x : Nat) : Int))
              (coord.z * (CHUNK_SIZE : Int) + ((z : Nat) : Int)))
            (coord.y * (CHUNK_SIZE : Int) + ((y : Nat) : Int)) g d s b)
        _ ?_ c2 (hq rfl)
      intro c3 y' _ hc3
      rw [Chunk.get_block_set_block_ne c3 _
        (fun hcon => by
          rcases hne with h | h
          · exact h hcon.1.symm
          · exact h hcon.2.2.symm)]
      exact hc3

/-- Modelled from the spec: the claim's block-precedence rule at one world
height, with the cases in the claim's order. -/
def terrain_block_spec (terrain_height world_y : Int)
    (grass_id dirt_id stone_id bedrock_id : BlockId) : BlockId :=
  if world_y < 0 then BlockId.AIR
  else if world_y = 0 then bedrock_id
  else if terrain_height < world_y then BlockId.AIR
  else if world_y = terrain_height then grass_id
  else if terrain_height - 3 ≤ world_y ∧ world_y < terrain_height then dirt_id
  else stone_id

theorem terrainBlock_eq_spec (th wy : Int) (g d s b : BlockId) :
    terrainBlock th wy g d s b = terrain_block_spec th wy g d s b := by
  unfold terrainBlock terrain_block_spec
  dsimp only
  by_cases h1 : wy < 0
  · simp [h1]
  · by_cases h2 : wy = 0
    · simp [h1, h2]
    · by_cases h3 : th < wy
      · simp [h1, h2, h3]
      · by_cases h4 : th - wy = 0
        · have h4' : wy = th := by omega
          simp [h1, h2, h3, h4, h4']
        · have h4' : ¬wy = th := by omega
          by_cases h5 : th - wy ≤ 3
          · have h5' : th - 3 ≤ wy ∧ wy < th := by omega
            simp [h1, h2, h3, h4, h4', h5, h5']
          · have h5' : ¬(th - 3 ≤ wy ∧ wy < th) := by omega
            simp [h1, h2, h3, h4, h4', h5]
            rw [if_neg (by omega)]

/-- **C6**: the live mesh builder returns no mesh for an all-air chunk; for
each of the six face directions its per-face guard equals the spec's
visibility rule (the adjacent voxel is air, a step across the chunk boundary
resolved through the matching neighbor chunk, a missing neighbor counting as
air, i.e. face emitted); every guard-passing face of a non-air voxel emits
exactly four vertices and air voxels emit none; and a single solid voxel in
an otherwise-air chunk with no loaded neighbors yields exactly one face in
each of the six directions (24 vertices, four per face normal). -/
theorem C6_mesh_face_emission :
    (∀ (chunk : Chunk) (reg : BlockRegistry) (neighbors : NeighborChunks)
        (sky : Nat) (ltb : Nat → Nat → ℚ),
      (∀ x y z, chunk.get_block x y z = BlockId.AIR) →
      create_chunk_mesh_with_sky_light chunk reg neighbors sky ltb = Option.none) ∧
    (∀ (chunk : Chunk) (neighbors : NeighborChunks) (x y z : Fin CHUNK_SIZE),
      should_render_face_with_neighbors chunk neighbors x y z 0 1 0 =
        adjacent_is_air_spec chunk neighbors x y z 0 1 0 ∧
      should_render_face_with_neighbors chunk neighbors x y z 0 (-1) 0 =
        adjacent_is_air_spec chunk neighbors x y z 0 (-1) 0 ∧
      should_render_face_with_neighbors chunk neighbors x y z 0 0 1 =
        adjacent_is_air_spec chunk neighbors x y z 0 0 1 ∧
      should_render_face_with_neighbors chunk neighbors x y z 0 0 (-1) =
        adjacent_is_air_spec chunk neighbors x y z 0 0 (-1) ∧
      should_render_face_with_neighbors chunk neighbors x y z 1 0 0 =
        adjacent_is_air_spec chunk neighbors x y z 1 0 0 ∧
      should_render_face_with_neighbors chunk neighbors x y z (-1) 0 0 =
        adjacent_is_air_spec chunk neighbors x y z (-1) 0 0) ∧
    (∀ (chunk : Chunk) (reg : BlockRegistry) (neighbors : NeighborChunks)
        (sky : Nat) (ltb : Nat → Nat → ℚ),
      (create_chunk_mesh_with_sky_light chunk reg neighbors sky ltb).elim 0
        (fun m => m.positions.length) = 4 * liveFaceCount chunk neighbors) ∧
    (let c₀ : Chunk := (Chunk.new ⟨0, 0, 0⟩).set_block 0 0 0 1
     let m := create_chunk_mesh_with_sky_light c₀ (fun _ => Option.none)
       NeighborChunks.none 15 (fun l s => ((min l s : Nat) : ℚ))
     m.elim 0 (fun md => md.positions.length) = 24 ∧
     m.elim 0 (fun md => md.normals.count (0, 1, 0)) = 4 ∧
     m.elim 0 (fun md => md.normals.count (0, -1, 0)) = 4 ∧
     m.elim 0 (fun md => md.normals.count (0, 0, 1)) = 4 ∧
     m.elim 0 (fun md => md.normals.count (0, 0, -1)) = 4 ∧
     m.elim 0 (fun md => md.normals.count (1, 0, 0)) = 4 ∧
     m.elim 0 (fun md => md.normals.count (-1, 0, 0)) = 4) := by
  refine ⟨create_chunk_mesh_all_air, ?_, create_chunk_mesh_len, ?_⟩
  · intro chunk neighbors x y z
    exact ⟨render_eq_spec_up chunk neighbors x y z,
      render_eq_spec_down chunk neighbors x y z,
      render_eq_spec_south chunk neighbors x y z,
      render_eq_spec_north chunk neighbors x y z,
      render_eq_spec_east chunk neighbors x y z,
      render_eq_spec_west chunk neighbors x y z⟩
  · have hair : ∀ p : Nat × Nat × Nat, p ∈ forwardOrder → p ≠ (0, 0, 0) →
        ((Chunk.new ⟨0, 0, 0⟩).set_block 0 0 0 1).get_block p.1 p.2.1 p.2.2 =
          BlockId.AIR := by
      rintro ⟨a, b, d⟩ _ hne
      have h : ¬(a = 0 ∧ b = 0 ∧ d = 0) := by
        rintro ⟨rfl, rfl, rfl⟩
        exact hne rfl
      rw [Chunk.get_block_set_block_ne _ 1 h]
      exact Chunk.get_block_new _ _ _ _
    dsimp only
    rw [create_chunk_mesh_single _ _ _ _ _ hair]
    decide

set_option maxRecDepth 4000 in
/-- Counterexample to C9 as stated: with all six neighbors absent, the
snapshot-cache builder (absent neighbor reads as light 0) and the live
builder (absent neighbor above or sideways reads as light 15) give different
face colors for a single solid voxel, so the meshes differ. -/
theorem C9_counterexample :
    create_chunk_mesh_with_cache ((Chunk.new ⟨0, 0, 0⟩).set_block 0 0 0 1)
        (fun _ => Option.none) ⟨0, 0, 0⟩ (fun _ => Option.none) 15
        (fun l s => if min l s = 15 then (1 : ℚ) else 0) ≠
      create_chunk_mesh_with_sky_light ((Chunk.new ⟨0, 0, 0⟩).set_block 0 0 0 1)
        (fun _ => Option.none) NeighborChunks.none 15
        (fun l s => if min l s = 15 then (1 : ℚ) else 0) := by
  have hair : ∀ p : Nat × Nat × Nat, p ∈ forwardOrder → p ≠ (0, 0, 0) →
      ((Chunk.new ⟨0, 0, 0⟩).set_block 0 0 0 1).get_block p.1 p.2.1 p.2.2 =
        BlockId.AIR := by
    rintro ⟨a, b, d⟩ _ hne
    have h : ¬(a = 0 ∧ b = 0 ∧ d = 0) := by
      rintro ⟨rfl, rfl, rfl⟩
      exact hne rfl
    rw [Chunk.get_block_set_block_ne _ 1 h]
    exact Chunk.get_block_new _ _ _ _
  unfold create_chunk_mesh_with_cache
  rw [create_chunk_mesh_cached_single _ _ _ _ _ _ hair,
    create_chunk_mesh_single _ _ _ _ _ hair]
  intro heq
  have hc := congrArg (fun om : Option MeshData =>
    om.elim (0 : ℚ) (fun m => (m.colors.getD 12 (0, 0, 0, 0)).2.2.2)) heq
  have hc2 : BRIGHTNESS_NORTH *
      (if min (cached_get_light ((Chunk.new ⟨0, 0, 0⟩).set_block 0 0 0 1)
          (fun _ _ _ _ _ _ => (0 : Nat))
          ((0 : Nat) : Int) ((0 : Nat) : Int) (((0 : Nat) : Int) - 1)) 15 = 15
        then (1 : ℚ) else 0) =
      BRIGHTNESS_NORTH *
      (if min (get_light_at ((Chunk.new ⟨0, 0, 0⟩).set_block 0 0 0 1)
          NeighborChunks.none
          ((0 : Nat) : Int) ((0 : Nat) : Int) (((0 : Nat) : Int) - 1)) 15 = 15
        then (1 : ℚ) else 0) := hc
  have ha : cached_get_light ((Chunk.new ⟨0, 0, 0⟩).set_block 0 0 0 1)
      (fun _ _ _ _ _ _ => (0 : Nat))
      ((0 : Nat) : Int) ((0 : Nat) : Int) (((0 : Nat) : Int) - 1) = 0 := by decide
  have hb : get_light_at ((Chunk.new ⟨0, 0, 0⟩).set_block 0 0 0 1)
      NeighborChunks.none
      ((0 : Nat) : Int) ((0 : Nat) : Int) (((0 : Nat) : Int) - 1) = 15 := by decide
  rw [ha, hb] at hc2
  have e1 : (if min (0 : Nat) 15 = 15 then (1 : ℚ) else 0) = 0 := by norm_num
  have e2 : (if min (15 : Nat) 15 = 15 then (1 : ℚ) else 0) = 1 := by norm_num
  rw [e1, e2, mul_zero, mul_one] at hc2
  exact absurd hc2 (by norm_num [BRIGHTNESS_NORTH])

/-- Witness for the amended C9 theorem: with all six neighbors present and
accessors reading exactly those chunks, the hypotheses hold definitionally. -/
theorem C9_witness :
    create_chunk_mesh_with_cached_neighbors (Chunk.new ⟨0, 0, 0⟩)
        (fun _ => Option.none) 15
        (fun _ _ _ a b d => (Chunk.new ⟨1, 1, 1⟩).get_block a b d)
        (fun _ _ _ a b d => (Chunk.new ⟨1, 1, 1⟩).get_light a b d)
        (fun l s => ((min l s : Nat) : ℚ)) =
      create_chunk_mesh_with_sky_light (Chunk.new ⟨0, 0, 0⟩) (fun _ => Option.none)
        ⟨some (Chunk.new ⟨1, 1, 1⟩), some (Chunk.new ⟨1, 1, 1⟩),
         some (Chunk.new ⟨1, 1, 1⟩), some (Chunk.new ⟨1, 1, 1⟩),
         some (Chunk.new ⟨1, 1, 1⟩), some (Chunk.new ⟨1, 1, 1⟩)⟩ 15
        (fun l s => ((min l s : Nat) : ℚ)) :=
  C9_mesh_builders_agree (Chunk.new ⟨0, 0, 0⟩) (fun _ => Option.none) 15
    (fun l s => ((min l s : Nat) : ℚ))
    (Chunk.new ⟨1, 1, 1⟩) (Chunk.new ⟨1, 1, 1⟩) (Chunk.new ⟨1, 1, 1⟩)
    (Chunk.new ⟨1, 1, 1⟩) (Chunk.new ⟨1, 1, 1⟩) (Chunk.new ⟨1, 1, 1⟩)
    (fun _ _ _ a b d => (Chunk.new ⟨1, 1, 1⟩).get_block a b d)
    (fun _ _ _ a b d => (Chunk.new ⟨1, 1, 1⟩).get_light a b d)
    (fun a b d => rfl) (fun a b d => rfl) (fun a b d => rfl)
    (fun a b d => rfl) (fun a b d => rfl) (fun a b d => rfl)
    (fun a b d => rfl) (fun a b d => rfl) (fun a b d => rfl)
    (fun a b d => rfl) (fun a b d => rfl) (fun a b d => rfl)

/-- **C4**: chunk generation is deterministic — the generated block and
light arrays are a function of the height field on the chunk's own 16×16
world columns (itself a pure function of the seed via `Simplex::new(seed)`)
and the chunk coordinate and material ids alone: any two runs whose height
fields agree there produce byte-identical block arrays and byte-identical
light arrays, whatever the registry and brightness parameters. -/
theorem C4_generation_deterministic (h1 h2 : Int → Int → Int)
    (coord : ChunkCoord) (g d s b : BlockId) (reg1 reg2 : BlockRegistry)
    (ltb1 ltb2 : Nat → Nat → ℚ)
    (hagree : ∀ x z : Nat, x < CHUNK_SIZE → z < CHUNK_SIZE →
      h1 (coord.x * (CHUNK_SIZE : Int) + (x : Int))
          (coord.z * (CHUNK_SIZE : Int) + (z : Int)) =
        h2 (coord.x * (CHUNK_SIZE : Int) + (x : Int))
          (coord.z * (CHUNK_SIZE : Int) + (z : Int))) :
    (generate_chunk h1 coord g d s b reg1 ltb1).2.1.blocks =
      (generate_chunk h2 coord g d s b reg2 ltb2).2.1.blocks ∧
    (generate_chunk h1 coord g d s b reg1 ltb1).2.1.light_levels =
      (generate_chunk h2 coord g d s b reg2 ltb2).2.1.light_levels := by
  have hfill : fillTerrain h1 coord g d s b (Chunk.new coord) =
      fillTerrain h2 coord g d s b (Chunk.new coord) := by
    unfold fillTerrain
    refine foldl_congr_mem columnOrder ?_ _
    intro c p hp
    obtain ⟨hx, hz⟩ := columnOrder_bounds hp
    unfold fillTerrainColumn
    simp only [hagree p.1 p.2 hx hz]
  unfold generate_chunk
  dsimp only
  rw [hfill]
  exact ⟨rfl, rfl⟩

/-- Witness for C4 at a concrete height field, coordinate and ids. -/
theorem C4_witness :
    (generate_chunk (fun _ _ => 7) ⟨0, 0, 0⟩ 1 2 3 4 (fun _ => Option.none)
        (fun _ _ => 0)).2.1.blocks =
      (generate_chunk (fun _ _ => 7) ⟨0, 0, 0⟩ 1 2 3 4 (fun _ => Option.none)
        (fun _ _ => 1)).2.1.blocks ∧
    (generate_chunk (fun _ _ => 7) ⟨0, 0, 0⟩ 1 2 3 4 (fun _ => Option.none)
        (fun _ _ => 0)).2.1.light_levels =
      (generate_chunk (fun _ _ => 7) ⟨0, 0, 0⟩ 1 2 3 4 (fun _ => Option.none)
        (fun _ _ => 1)).2.1.light_levels :=
  C4_generation_deterministic (fun _ _ => 7) (fun _ _ => 7) ⟨0, 0, 0⟩ 1 2 3 4
    _ _ _ _ (fun _ _ _ _ => rfl)

/-- **C5**: the generated block at chunk-local `(x, y, z)` follows the
claim's precedence on the column's terrain height and the world height
`coord.y * CHUNK_SIZE + y`: negative height is air, height 0 is bedrock,
above the terrain is air, at the terrain is grass, within three below is
dirt, deeper is stone — and the lighting pass touches no blocks. -/
theorem C5_terrain_block_precedence (height : Int → Int → Int)
    (coord : ChunkCoord) (g d s b : BlockId) (reg : BlockRegistry)
    (ltb : Nat → Nat → ℚ) (x y z : Fin CHUNK_SIZE) :
    (generate_chunk height coord g d s b reg ltb).2.1.get_block x y z =
      terrain_block_spec
        (height (coord.x * (CHUNK_SIZE : Int) + ((x : Nat) : Int))
          (coord.z * (CHUNK_SIZE : Int) + ((z : Nat) : Int)))
        (coord.y * (CHUNK_SIZE : Int) + ((y : Nat) : Int)) g d s b := by
  unfold generate_chunk
  dsimp only
  refine (Chunk.get_block_congr (blocks_calculate_skylight _) _ _ _).trans ?_
  refine (fillTerrain_get height coord g d s b (Chunk.new coord) x y z).trans ?_
  exact terrainBlock_eq_spec _ _ g d s b

/-- Witness for C6: a fresh all-air chunk indeed produces no mesh. -/
theorem C6_witness :
    create_chunk_mesh_with_sky_light (Chunk.new ⟨0, 0, 0⟩) (fun _ => Option.none)
      NeighborChunks.none 15 (fun _ _ => 0) = Option.none :=
  C6_mesh_face_emission.1 (Chunk.new ⟨0, 0, 0⟩) (fun _ => Option.none)
    NeighborChunks.none 15 (fun _ _ => 0)
    (fun x y z => Chunk.get_block_new ⟨0, 0, 0⟩ x y z)

end MC
